import Mathlib

/-!
Gestion_Dispositivos: device manager and auto-completion sweep.

A shallow embedding of `src/script.js`: the classes `Dispositivo` (with its
subclasses `USB`, `Impresora`, `Auriculares`) and `SimuladorSO`.

Modelling conventions.

* JavaScript objects mutated in place become values that are replaced in the
  list that holds them: `arr[findIndex(p)]` is `List.findIdx?` followed by
  `List.set` or `List.modify` at that index, and `arr.find(p)` followed by a
  mutation of the found object is the same thing.
* The records pushed to `Dispositivo.operacionesPendientes` and to
  `SimuladorSO.colaOperaciones` are distinct objects in the source, so they
  are distinct types here (`Operacion`, `OperacionCola`).
* Every `new Date()` and `Date.now()` is one reading of the system clock.  The
  clock is an oracle `r : Reloj`; a function that reads the clock takes the
  number `k` of readings made so far and returns the new number.  Times are
  milliseconds.
* The strings `'conectado'`, `'pendiente'`, ... stored in `estado` fields are
  the constructors of `EstadoDispositivo` and `EstadoOperacion`; the class of
  a device (fixed by the subclass constructor) is a `Tipo`.
* The DOM code (`actualizarVistas` and the functions it calls) only reads the
  state and is left out, as are the cosmetic entries of `visibleProperties`
  and the random `hiddenProperties`, which no method reads.
-/

namespace GestionDispositivos

/-- The system clock: `r n` is the value of the `n`-th reading (milliseconds). -/
abbrev Reloj := Nat → Nat

/-- The three device classes: `USB`, `Impresora`, `Auriculares`. -/
inductive Tipo where
  | usb
  | impresora
  | auriculares
  deriving DecidableEq, Repr

/-- The string passed to `super(...)` by each subclass constructor. -/
def Tipo.nombre : Tipo → String
  | .usb => "usb"
  | .impresora => "impresora"
  | .auriculares => "auriculares"

/-- The `switch(tipo)` of `conectarDispositivo`: the class named by a string. -/
def Tipo.deNombre (tipo : String) : Option Tipo :=
  if tipo = "usb" then some .usb
  else if tipo = "impresora" then some .impresora
  else if tipo = "auriculares" then some .auriculares
  else none

/-- Values of `Dispositivo.estado`. -/
inductive EstadoDispositivo where
  | conectado
  | error
  | desconectado
  deriving DecidableEq, Repr

/-- Values of the `estado` field of an operation record. -/
inductive EstadoOperacion where
  | pendiente
  | completado
  | fallido
  | cancelado
  deriving DecidableEq, Repr

/-- A record of `Dispositivo.operacionesPendientes`. -/
structure Operacion where
  id : String
  tipo : String
  estado : EstadoOperacion
  dispositivo : String
  datos : Option String
  timestamp : Nat
  completedAt : Option Nat
  deriving DecidableEq, Repr

/-- A record of `SimuladorSO.colaOperaciones`. -/
structure OperacionCola where
  id : String
  dispositivo : String
  tipo : String
  estado : EstadoOperacion
  timestamp : Nat
  completedAt : Option Nat
  failedAt : Option Nat
  deriving DecidableEq, Repr

/-- The class `Dispositivo`; `estadoVisible` is `visibleProperties.Estado`. -/
structure Dispositivo where
  tipo : Tipo
  id : String
  estado : EstadoDispositivo
  operacionesPendientes : List Operacion
  driver : String
  connectedAt : Nat
  enError : Bool
  estadoVisible : EstadoDispositivo
  deriving DecidableEq, Repr

/-- One entry of `SimuladorSO.manejadores`. -/
structure Manejador where
  manejador : String
  operaciones : List String
  activos : Int
  deriving DecidableEq, Repr

/-- The object `SimuladorSO.manejadores`, keyed by class name. -/
structure Manejadores where
  usb : Manejador
  impresora : Manejador
  auriculares : Manejador
  deriving DecidableEq, Repr

/-- The class `SimuladorSO`; `autoCompleteInterval` is `true` when the interval
handle is non-null (the timer is running). -/
structure SimuladorSO where
  dispositivos : List Dispositivo
  colaOperaciones : List OperacionCola
  manejadores : Manejadores
  nextId : Nat
  autoCompleteInterval : Bool
  autoCompleteTime : Nat
  deriving DecidableEq, Repr

/-- Lookup `manejadores[tipo]`. -/
def Manejadores.get (m : Manejadores) : Tipo → Manejador
  | .usb => m.usb
  | .impresora => m.impresora
  | .auriculares => m.auriculares

/-- Update of `manejadores[tipo].activos`. -/
def Manejadores.modificarActivos (m : Manejadores) (t : Tipo) (f : Int → Int) : Manejadores :=
  match t with
  | .usb => { m with usb := { m.usb with activos := f m.usb.activos } }
  | .impresora => { m with impresora := { m.impresora with activos := f m.impresora.activos } }
  | .auriculares => { m with auriculares := { m.auriculares with activos := f m.auriculares.activos } }

/-! ## class Dispositivo -/

/-- The constructor `Dispositivo(tipo, id)`; `t` is the reading `new Date()`. -/
def Dispositivo.nuevo (tipo : Tipo) (id : String) (t : Nat) : Dispositivo :=
  { tipo := tipo
    id := id
    estado := .conectado
    operacionesPendientes := []
    driver := tipo.nombre ++ "_driver.sys"
    connectedAt := t
    enError := false
    estadoVisible := .conectado }

/-- Method `operacionEntrada()`: `Date.now()` for the id, `new Date()` for the
timestamp. -/
def Dispositivo.operacionEntrada (d : Dispositivo) (r : Reloj) (k : Nat) :
    String × Dispositivo × Nat :=
  let opId := "op_" ++ d.tipo.nombre ++ "_" ++ toString (r k)
  (opId,
   { d with operacionesPendientes := d.operacionesPendientes ++
      [{ id := opId, tipo := "entrada", estado := .pendiente, dispositivo := d.id,
         datos := none, timestamp := r (k + 1), completedAt := none }] },
   k + 2)

/-- Method `operacionSalida(datos)`. -/
def Dispositivo.operacionSalida (d : Dispositivo) (r : Reloj) (k : Nat) (datos : Option String) :
    String × Dispositivo × Nat :=
  let opId := "op_" ++ d.tipo.nombre ++ "_" ++ toString (r k)
  (opId,
   { d with operacionesPendientes := d.operacionesPendientes ++
      [{ id := opId, tipo := "salida", estado := .pendiente, dispositivo := d.id,
         datos := datos, timestamp := r (k + 1), completedAt := none }] },
   k + 2)

/-- Method `Dispositivo.completarOperacion(opId)`. -/
def Dispositivo.completarOperacion (d : Dispositivo) (r : Reloj) (k : Nat) (opId : String) :
    Bool × Dispositivo × Nat :=
  match d.operacionesPendientes.findIdx? (fun op => op.id == opId) with
  | some opIndex =>
    (true,
     { d with operacionesPendientes := (d.operacionesPendientes.modify
        (fun op => { op with estado := .completado, completedAt := some (r k) }) opIndex) },
     k + 1)
  | none => (false, d, k)

/-- Method `Dispositivo.fallarOperacion(opId)`. -/
def Dispositivo.fallarOperacion (d : Dispositivo) (opId : String) : Bool × Dispositivo :=
  match d.operacionesPendientes.findIdx? (fun op => op.id == opId) with
  | some opIndex =>
    (true,
     { d with
        operacionesPendientes := (d.operacionesPendientes.modify
          (fun op => { op with estado := .fallido }) opIndex)
        enError := true
        estado := .error
        estadoVisible := .error })
  | none => (false, d)

/-- The `forEach` of `recuperarDeError`: every record that is `fallido` becomes
`pendiente` with a fresh `new Date()`. -/
def recuperarOperaciones (r : Reloj) : Nat → List Operacion → List Operacion × Nat
  | k, [] => ([], k)
  | k, op :: ops =>
    if op.estado = .fallido then
      let res := recuperarOperaciones r (k + 1) ops
      ({ op with estado := .pendiente, timestamp := r k } :: res.1, res.2)
    else
      let res := recuperarOperaciones r k ops
      (op :: res.1, res.2)

/-- Method `recuperarDeError()`. -/
def Dispositivo.recuperarDeError (d : Dispositivo) (r : Reloj) (k : Nat) :
    Bool × Dispositivo × Nat :=
  if d.enError then
    let res := recuperarOperaciones r k d.operacionesPendientes
    (true,
     { d with enError := false, estado := .conectado, estadoVisible := .conectado,
              operacionesPendientes := res.1 },
     res.2)
  else (false, d, k)

/-- Method `expulsar()`. -/
def Dispositivo.expulsar (d : Dispositivo) : Dispositivo :=
  { d with estado := .desconectado, estadoVisible := .desconectado, enError := false }

/-! ## subclasses USB, Impresora, Auriculares

The methods call `operacionEntrada()` and `operacionSalida()` without
arguments, so `datos` is `undefined`. -/

/-- Method `USB.leerDatos()`. -/
def Dispositivo.leerDatos (d : Dispositivo) (r : Reloj) (k : Nat) := d.operacionEntrada r k
/-- Method `USB.escribirDatos()`. -/
def Dispositivo.escribirDatos (d : Dispositivo) (r : Reloj) (k : Nat) := d.operacionSalida r k none
/-- Method `Impresora.imprimir()`. -/
def Dispositivo.imprimir (d : Dispositivo) (r : Reloj) (k : Nat) := d.operacionSalida r k none
/-- Method `Impresora.estadoTinta()`. -/
def Dispositivo.estadoTinta (d : Dispositivo) (r : Reloj) (k : Nat) := d.operacionEntrada r k
/-- Method `Auriculares.reproducirAudio()`. -/
def Dispositivo.reproducirAudio (d : Dispositivo) (r : Reloj) (k : Nat) := d.operacionSalida r k none
/-- Method `Auriculares.capturarAudio()`. -/
def Dispositivo.capturarAudio (d : Dispositivo) (r : Reloj) (k : Nat) := d.operacionEntrada r k

/-! ## class SimuladorSO -/

/-- The constructor `SimuladorSO()`. -/
def SimuladorSO.nuevo : SimuladorSO :=
  { dispositivos := []
    colaOperaciones := []
    manejadores :=
      { usb := { manejador := "usb_handler.sys", operaciones := ["leerDatos", "escribirDatos"], activos := 0 }
        impresora := { manejador := "printer_handler.sys", operaciones := ["imprimir", "estadoTinta"], activos := 0 }
        auriculares := { manejador := "audio_handler.sys", operaciones := ["reproducirAudio", "capturarAudio"], activos := 0 } }
    nextId := 1
    autoCompleteInterval := false
    autoCompleteTime := 3000 }

/-- Method `iniciarAutoCompletado()`: the interval handle becomes non-null. -/
def SimuladorSO.iniciarAutoCompletado (s : SimuladorSO) : SimuladorSO :=
  { s with autoCompleteInterval := true }

/-- Method `conectarDispositivo(tipo)`. -/
def SimuladorSO.conectarDispositivo (s : SimuladorSO) (r : Reloj) (k : Nat) (tipo : String) :
    Option Dispositivo × SimuladorSO × Nat :=
  let id := "dev_" ++ tipo ++ "_" ++ toString s.nextId
  let s1 := { s with nextId := s.nextId + 1 }
  match Tipo.deNombre tipo with
  | none => (none, s1, k)
  | some t =>
    let dispositivo := Dispositivo.nuevo t id (r k)
    let s2 := { s1 with
      dispositivos := s1.dispositivos ++ [dispositivo]
      manejadores := s1.manejadores.modificarActivos t (fun n => n + 1) }
    let s3 := if !s2.autoCompleteInterval then s2.iniciarAutoCompletado else s2
    (some dispositivo, s3, k + 1)

/-- Method `SimuladorSO.completarOperacion(opId)`. -/
def SimuladorSO.completarOperacion (s : SimuladorSO) (r : Reloj) (k : Nat) (opId : String) :
    Bool × SimuladorSO × Nat :=
  match s.colaOperaciones.findIdx? (fun op => op.id == opId) with
  | none => (false, s, k)
  | some opIndex =>
    let s1 := { s with colaOperaciones := (s.colaOperaciones.modify
      (fun op => { op with estado := .completado, completedAt := some (r k) }) opIndex) }
    match s1.colaOperaciones[opIndex]? with
    | none => (true, s1, k + 1)
    | some q =>
      match s1.dispositivos.findIdx? (fun dev => dev.id == q.dispositivo) with
      | none => (true, s1, k + 1)
      | some i =>
        match s1.dispositivos[i]? with
        | none => (true, s1, k + 1)
        | some dispositivo =>
          let res := dispositivo.completarOperacion r (k + 1) opId
          (true, { s1 with dispositivos := s1.dispositivos.set i res.2.1 }, res.2.2)

/-- Method `SimuladorSO.fallarOperacion(opId)`. -/
def SimuladorSO.fallarOperacion (s : SimuladorSO) (r : Reloj) (k : Nat) (opId : String) :
    Bool × SimuladorSO × Nat :=
  match s.colaOperaciones.findIdx? (fun op => op.id == opId) with
  | none => (false, s, k)
  | some opIndex =>
    let s1 := { s with colaOperaciones := (s.colaOperaciones.modify
      (fun op => { op with estado := .fallido, failedAt := some (r k) }) opIndex) }
    match s1.colaOperaciones[opIndex]? with
    | none => (true, s1, k + 1)
    | some q =>
      match s1.dispositivos.findIdx? (fun dev => dev.id == q.dispositivo) with
      | none => (true, s1, k + 1)
      | some i =>
        match s1.dispositivos[i]? with
        | none => (true, s1, k + 1)
        | some dispositivo =>
          (true, { s1 with dispositivos := s1.dispositivos.set i (dispositivo.fallarOperacion opId).2 },
           k + 1)

/-- The body of the inner `forEach` of `completarOperacionesPendientes`, at
operation `j` of device `i`, both read from the current state. -/
def barridoOperacion (r : Reloj) (ahora : Nat) (i : Nat) (st : SimuladorSO × Nat) (j : Nat) :
    SimuladorSO × Nat :=
  match st.1.dispositivos[i]? with
  | none => st
  | some dispositivo =>
    match dispositivo.operacionesPendientes[j]? with
    | none => st
    | some op =>
      if op.estado = .pendiente ∧ (ahora : Int) - (op.timestamp : Int) > (st.1.autoCompleteTime : Int) then
        (st.1.completarOperacion r st.2 op.id).2
      else st

/-- The body of the outer `forEach` of `completarOperacionesPendientes`, at
device `i`. -/
def barridoDispositivo (r : Reloj) (ahora : Nat) (st : SimuladorSO × Nat) (i : Nat) :
    SimuladorSO × Nat :=
  match st.1.dispositivos[i]? with
  | none => st
  | some dispositivo =>
    if dispositivo.estado ≠ .conectado then st
    else (List.range dispositivo.operacionesPendientes.length).foldl (barridoOperacion r ahora i) st

/-- Method `completarOperacionesPendientes()`: one tick of the sweep. -/
def SimuladorSO.completarOperacionesPendientes (s : SimuladorSO) (r : Reloj) (k : Nat) :
    SimuladorSO × Nat :=
  let ahora := r k
  (List.range s.dispositivos.length).foldl (barridoDispositivo r ahora) (s, k + 1)

/-- Method `expulsarDispositivo(id)`. -/
def SimuladorSO.expulsarDispositivo (s : SimuladorSO) (id : String) : Bool × SimuladorSO :=
  match s.dispositivos.findIdx? (fun dev => dev.id == id) with
  | none => (false, s)
  | some index =>
    match s.dispositivos[index]? with
    | none => (false, s)
    | some dispositivo =>
      let tipo := dispositivo.tipo
      let d1 := dispositivo.expulsar
      let d2 : Dispositivo := { d1 with operacionesPendientes := (d1.operacionesPendientes.map
        (fun op => if op.estado = .pendiente then { op with estado := .cancelado } else op)) }
      let s1 : SimuladorSO := { s with
        dispositivos := s.dispositivos.set index d2
        manejadores := s.manejadores.modificarActivos tipo (fun n => n - 1) }
      let s2 : SimuladorSO :=
        if (s1.dispositivos.filter (fun (d : Dispositivo) => decide (d.estado = .conectado))).length = 0 then
          { s1 with autoCompleteInterval := false }
        else s1
      (true, s2)

/-- Method `recuperarDispositivo(id)`. -/
def SimuladorSO.recuperarDispositivo (s : SimuladorSO) (r : Reloj) (k : Nat) (id : String) :
    Bool × SimuladorSO × Nat :=
  match s.dispositivos.findIdx? (fun dev => dev.id == id) with
  | none => (false, s, k)
  | some i =>
    match s.dispositivos[i]? with
    | none => (false, s, k)
    | some dispositivo =>
      if dispositivo.enError then
        let res := dispositivo.recuperarDeError r k
        (true, { s with dispositivos := s.dispositivos.set i res.2.1 }, res.2.2)
      else (false, s, k)

/-- Method `agregarOperacion(idDispositivo, tipoOperacion, datos)`. -/
def SimuladorSO.agregarOperacion (s : SimuladorSO) (r : Reloj) (k : Nat)
    (idDispositivo tipoOperacion : String) (_datos : Option String) :
    Option String × SimuladorSO × Nat :=
  match s.dispositivos.findIdx? (fun dev => dev.id == idDispositivo) with
  | none => (none, s, k)
  | some i =>
    match s.dispositivos[i]? with
    | none => (none, s, k)
    | some dispositivo =>
      if dispositivo.estado ≠ .conectado then (none, s, k)
      else
        let res :=
          match dispositivo.tipo with
          | .usb =>
            if tipoOperacion = "entrada" then dispositivo.leerDatos r k
            else dispositivo.escribirDatos r k
          | .impresora =>
            if tipoOperacion = "entrada" then dispositivo.estadoTinta r k
            else dispositivo.imprimir r k
          | .auriculares =>
            if tipoOperacion = "entrada" then dispositivo.capturarAudio r k
            else dispositivo.reproducirAudio r k
        let opId := res.1
        let s1 := { s with
          dispositivos := s.dispositivos.set i res.2.1
          colaOperaciones := s.colaOperaciones ++
            [{ id := opId, dispositivo := idDispositivo, tipo := tipoOperacion,
               estado := .pendiente, timestamp := r res.2.2, completedAt := none,
               failedAt := none }] }
        (some opId, s1, res.2.2 + 1)

/-! ## Commands and reachable states -/

/-- The public commands of the manager, and the tick of the sweep timer. -/
inductive Comando where
  | conectar (tipo : String)
  | expulsar (id : String)
  | recuperar (id : String)
  | agregar (idDispositivo tipoOperacion : String) (datos : Option String)
  | completar (opId : String)
  | fallar (opId : String)
  | tic
  deriving DecidableEq, Repr

/-- Run one command; the clock position is threaded through. -/
def ejecutar (r : Reloj) (st : SimuladorSO × Nat) : Comando → SimuladorSO × Nat
  | .conectar tipo => (st.1.conectarDispositivo r st.2 tipo).2
  | .expulsar id => ((st.1.expulsarDispositivo id).2, st.2)
  | .recuperar id => (st.1.recuperarDispositivo r st.2 id).2
  | .agregar idDispositivo tipoOperacion datos =>
    (st.1.agregarOperacion r st.2 idDispositivo tipoOperacion datos).2
  | .completar opId => (st.1.completarOperacion r st.2 opId).2
  | .fallar opId => (st.1.fallarOperacion r st.2 opId).2
  | .tic => st.1.completarOperacionesPendientes r st.2

/-- Run a sequence of commands from the freshly constructed manager. -/
def correr (r : Reloj) (cs : List Comando) : SimuladorSO × Nat :=
  cs.foldl (ejecutar r) (SimuladorSO.nuevo, 0)

/-- A manager state is reachable when some clock and some sequence of commands
produce it from `new SimuladorSO()`. -/
def Alcanzable (s : SimuladorSO) : Prop :=
  ∃ (r : Reloj) (cs : List Comando), (correr r cs).1 = s

/-- A clock that advances by `paso` milliseconds between two readings. -/
def relojPaso (paso : Nat) : Reloj := fun n => paso * n

/-- A clock that stands still at `t`. -/
def relojFijo (t : Nat) : Reloj := fun _ => t

/-- The relation between `enError`, `estado` and the failed records that every
device of a reachable manager satisfies. -/
def InvDispositivo (d : Dispositivo) : Prop :=
  (d.enError = true ↔ d.estado = .error) ∧
  (d.estado = .conectado → ∀ op ∈ d.operacionesPendientes, op.estado ≠ .fallido)

/-- Every device of the manager satisfies `InvDispositivo`. -/
def InvSimulador (s : SimuladorSO) : Prop :=
  ∀ d ∈ s.dispositivos, InvDispositivo d

/-! ## Definitions used to state the properties of the sweep -/

/-- The write of `completarOperacion` on a queue record. -/
def marcaCola (t : Nat) (q : OperacionCola) : OperacionCola :=
  { q with estado := .completado, completedAt := some t }

/-- The write of `completarOperacion` on a device record. -/
def marcaOperacion (t : Nat) (op : Operacion) : Operacion :=
  { op with estado := .completado, completedAt := some t }

/-- The queue after `completarOperacion(x)` with clock reading `t`. -/
def completarEnCola (t : Nat) (x : String) (cola : List OperacionCola) : List OperacionCola :=
  match cola.findIdx? (fun q => q.id == x) with
  | none => cola
  | some n => cola.modify (marcaCola t) n

/-- A device after `Dispositivo.completarOperacion(x)` with clock reading `t`. -/
def completarEnDispositivo (t : Nat) (x : String) (d : Dispositivo) : Dispositivo :=
  match d.operacionesPendientes.findIdx? (fun op => op.id == x) with
  | none => d
  | some j => { d with operacionesPendientes := d.operacionesPendientes.modify (marcaOperacion t) j }

/-- The device list after `completarOperacion(x)`: the device named by the
queue record of `x` is looked up and completes `x` with clock reading `t`. -/
def completarEnDispositivos (t : Nat) (x : String) (cola : List OperacionCola)
    (ds : List Dispositivo) : List Dispositivo :=
  match cola.findIdx? (fun q => q.id == x) with
  | none => ds
  | some n =>
    match cola[n]? with
    | none => ds
    | some q =>
      match ds.findIdx? (fun dev => dev.id == q.dispositivo) with
      | none => ds
      | some i => ds.modify (completarEnDispositivo t x) i

/-- The index of the device that `completarOperacion(x)` updates. -/
def posDispositivo (x : String) (cola : List OperacionCola) (ds : List Dispositivo) :
    Option Nat :=
  match cola.findIdx? (fun q => q.id == x) with
  | none => none
  | some n =>
    match cola[n]? with
    | none => none
    | some q => ds.findIdx? (fun dev => dev.id == q.dispositivo)

/-- The manager after `completarOperacion(x)` when every clock reading is `t`. -/
def completarFijo (t : Nat) (x : String) (s : SimuladorSO) : SimuladorSO :=
  { s with
    colaOperaciones := completarEnCola t x s.colaOperaciones
    dispositivos := completarEnDispositivos t x s.colaOperaciones s.dispositivos }

/-- The test of the sweep at operation `j` of device `i`: the device is
`conectado`, the record is `pendiente`, older than `autoCompleteTime`, and its
id is `x`. -/
def Dispara (ahora : Nat) (s : SimuladorSO) (i j : Nat) (x : String) : Prop :=
  ∃ d op, s.dispositivos[i]? = some d ∧ d.estado = .conectado ∧
    d.operacionesPendientes[j]? = some op ∧ op.estado = .pendiente ∧
    (ahora : Int) - (op.timestamp : Int) > (s.autoCompleteTime : Int) ∧ op.id = x

/-- Record `b` is record `a` with, possibly, `estado` set to `completado`
(allowed only when the id satisfies `X`) and another `completedAt`. -/
def RelOperacion (X : String → Prop) (a b : Operacion) : Prop :=
  b.id = a.id ∧ b.timestamp = a.timestamp ∧
    (b.estado = a.estado ∨ (b.estado = .completado ∧ X a.id))

/-- The same relation on queue records. -/
def RelCola (X : String → Prop) (p q : OperacionCola) : Prop :=
  q.id = p.id ∧ q.dispositivo = p.dispositivo ∧
    (q.estado = p.estado ∨ (q.estado = .completado ∧ X p.id))

/-- The same relation on devices. -/
def RelDispositivo (X : String → Prop) (d e : Dispositivo) : Prop :=
  e.id = d.id ∧ e.estado = d.estado ∧
    List.Forall₂ (RelOperacion X) d.operacionesPendientes e.operacionesPendientes

/-- The same relation on managers: `t` is `s` after completions of operations
whose ids satisfy `X`. -/
def Rel (X : String → Prop) (s t : SimuladorSO) : Prop :=
  List.Forall₂ (RelDispositivo X) s.dispositivos t.dispositivos ∧
  List.Forall₂ (RelCola X) s.colaOperaciones t.colaOperaciones ∧
  t.autoCompleteTime = s.autoCompleteTime

/-- No operation that the sweep would select at time `t` is changed by its
completion at time `t`: the state is a fixed point of the sweep. -/
def Estable (t : Nat) (s : SimuladorSO) : Prop :=
  ∀ i j x, Dispara t s i j x → completarFijo t x s = s

/-- The pairs (operation id, owning device id) read off the devices' lists. -/
def paresDispositivos (s : SimuladorSO) : List (String × String) :=
  s.dispositivos.flatMap (fun d => d.operacionesPendientes.map (fun op => (op.id, d.id)))

/-- The pairs (operation id, device id) read off the queue. -/
def paresCola (s : SimuladorSO) : List (String × String) :=
  s.colaOperaciones.map (fun q => (q.id, q.dispositivo))

/-- The data model of the manager: device ids are pairwise distinct, operation
ids are pairwise distinct over all device lists and over the queue, and every
record of a device's list has a record in the queue with the same id and that
device's id. -/
structure BienFormado (s : SimuladorSO) : Prop where
  idsDispositivos : (s.dispositivos.map (fun d => d.id)).Nodup
  idsOperaciones : ((paresDispositivos s).map Prod.fst).Nodup
  idsCola : ((paresCola s).map Prod.fst).Nodup
  espejo : paresDispositivos s ⊆ paresCola s

/-- Operation `x`, at position `j` of device `i`, is `completado` in the
device's list and in the queue. -/
def Hecha (s : SimuladorSO) (i j : Nat) (x : String) : Prop :=
  (∃ d op, s.dispositivos[i]? = some d ∧ d.operacionesPendientes[j]? = some op ∧
    op.estado = .completado) ∧
  (∀ q ∈ s.colaOperaciones, q.id = x → q.estado = .completado)

/-- The cells (device index, operation index) that the sweep has visited when it
is about to test operation `j` of device `i`. -/
def Visto (i j : Nat) (i' j' : Nat) : Prop := i' < i ∨ (i' = i ∧ j' < j)

/-- Invariant of the sweep started in `s0`, after the cells `V`: only
operations selected in `s0` at a visited cell have been completed, and every
one of them is completed in both copies. -/
def InvBarrido (ahora : Nat) (s0 : SimuladorSO) (V : Nat → Nat → Prop) (s : SimuladorSO) :
    Prop :=
  Rel (fun x => ∃ i' j', V i' j' ∧ Dispara ahora s0 i' j' x) s0 s ∧
  ∀ i' j' x, V i' j' → Dispara ahora s0 i' j' x → Hecha s i' j' x

/-! ## Definitions used to state the properties of ids, counts and the timer -/

/-- The number written by a list of decimal digit characters. -/
def valorDigitos (cs : List Char) (a : Nat) : Nat :=
  cs.foldl (fun acc c => acc * 10 + (c.toNat - 48)) a

/-- The id that `conectarDispositivo` gives to a device of class `t` when
`nextId` is `n`. -/
def idDispositivo (t : Tipo) (n : Nat) : String :=
  "dev_" ++ t.nombre ++ "_" ++ toString n

/-- The fields of the manager that only `conectarDispositivo` and
`expulsarDispositivo` write. -/
def camposFijos (s : SimuladorSO) : Manejadores × Nat × Bool × Nat :=
  (s.manejadores, s.nextId, s.autoCompleteInterval, s.autoCompleteTime)

/-- The device ids are `idDispositivo` of the device's class and of sequence
numbers that increase strictly along the device list and are below `nextId`. -/
def InvIds (s : SimuladorSO) : Prop :=
  ∃ seqs : List Nat, seqs.Pairwise (fun a b => a < b) ∧ (∀ n ∈ seqs, n < s.nextId) ∧
    List.Forall₂ (fun d n => d.id = idDispositivo d.tipo n) s.dispositivos seqs

/-- Device `e` is device `d` with the same id and class. -/
def MismaIdentidad (d e : Dispositivo) : Prop := e.id = d.id ∧ e.tipo = d.tipo

/-- Some device of the manager is not `desconectado`. -/
def HayNoDesconectado (s : SimuladorSO) : Prop :=
  ∃ d ∈ s.dispositivos, d.estado ≠ .desconectado

/-- When the timer is running some device is not `desconectado`. -/
def InvTemporizador (s : SimuladorSO) : Prop :=
  s.autoCompleteInterval = true → HayNoDesconectado s

/-- Device `e` is not `desconectado` if device `d` is not. -/
def SigueNoDesconectado (d e : Dispositivo) : Prop :=
  d.estado ≠ .desconectado → e.estado ≠ .desconectado

/-! ## Definitions used to state that the history only grows -/

/-- Device record `b` is record `a` updated in place: same id, kind, device
and payload; only `estado`, `timestamp` and `completedAt` may differ. -/
def MismoRegistro (a b : Operacion) : Prop :=
  b.id = a.id ∧ b.tipo = a.tipo ∧ b.dispositivo = a.dispositivo ∧ b.datos = a.datos

/-- Queue record `q` is record `p` updated in place: same id, device and kind;
only `estado` and the timestamps may differ. -/
def MismoRegistroCola (p q : OperacionCola) : Prop :=
  q.id = p.id ∧ q.dispositivo = p.dispositivo ∧ q.tipo = p.tipo

/-- List `l'` is list `l` with its elements updated in place (related by `R`,
position by position) and, possibly, more elements appended. -/
def Extiende {α : Type} (R : α → α → Prop) (l l' : List α) : Prop :=
  ∃ l₁ l₂ : List α, l' = l₁ ++ l₂ ∧ List.Forall₂ R l l₁

/-- Device `e` is device `d` with its records updated in place. -/
def ActualizadoEnSitio (d e : Dispositivo) : Prop :=
  e.id = d.id ∧ List.Forall₂ MismoRegistro d.operacionesPendientes e.operacionesPendientes

/-- Device `e` is device `d` with its records updated in place and, possibly,
more records appended. -/
def HistorialDispositivo (d e : Dispositivo) : Prop :=
  e.id = d.id ∧ Extiende MismoRegistro d.operacionesPendientes e.operacionesPendientes

/-- Manager `t` keeps the history of manager `s`: devices and records are
updated in place, new ones are appended, none is removed or reordered. -/
def Historial (s t : SimuladorSO) : Prop :=
  Extiende HistorialDispositivo s.dispositivos t.dispositivos ∧
  Extiende MismoRegistroCola s.colaOperaciones t.colaOperaciones

/-! ## Auxiliary facts on lists -/

theorem findIdx?_lt {α : Type} {p : α → Bool} {l : List α} {i : Nat}
    (h : l.findIdx? p = some i) : i < l.length := by
  rw [List.findIdx?_eq_some_iff_getElem] at h
  exact h.1

theorem getElem?_of_findIdx? {α : Type} {p : α → Bool} {l : List α} {i : Nat}
    (h : l.findIdx? p = some i) : ∃ a, l[i]? = some a ∧ p a = true := by
  rw [List.findIdx?_eq_some_iff_getElem] at h
  obtain ⟨hlt, hp, _⟩ := h
  exact ⟨l[i], by simp [hlt], hp⟩

/-! ## agregarOperacion -/

theorem agregarOperacion_dispositivos (s : SimuladorSO) (r : Reloj) (k i : Nat) (d : Dispositivo)
    (idDispositivo tipoOperacion : String) (datos : Option String)
    (hi : s.dispositivos.findIdx? (fun dev => dev.id == idDispositivo) = some i)
    (hd : s.dispositivos[i]? = some d)
    (hc : d.estado = .conectado) :
    ∃ op : Operacion, op.estado = .pendiente ∧
      (s.agregarOperacion r k idDispositivo tipoOperacion datos).2.1.dispositivos =
        s.dispositivos.set i { d with operacionesPendientes := d.operacionesPendientes ++ [op] } := by
  unfold SimuladorSO.agregarOperacion
  simp only [hi, hd, hc, ne_eq, not_true_eq_false, if_false]
  obtain ⟨tipo, id, estado, ops, driver, cAt, enError, ev⟩ := d
  simp only at hc
  subst hc
  cases tipo <;> by_cases he : tipoOperacion = "entrada" <;>
    simp only [he, if_true, if_false, Dispositivo.leerDatos, Dispositivo.escribirDatos,
      Dispositivo.imprimir, Dispositivo.estadoTinta, Dispositivo.reproducirAudio,
      Dispositivo.capturarAudio, Dispositivo.operacionEntrada, Dispositivo.operacionSalida] <;>
    exact ⟨_, rfl, rfl⟩

/-- C1 (as amended): on a device found by its id and `conectado`,
`agregarOperacion` appends one `pendiente` record to the device's list and one
to the queue, both with the returned id; all earlier records are unchanged.
The device record carries the second clock reading of the call and the queue
record the third. -/
theorem agregarOperacion_conectado (s : SimuladorSO) (r : Reloj) (k i : Nat) (d : Dispositivo)
    (idDispositivo tipoOperacion : String) (datos : Option String)
    (hi : s.dispositivos.findIdx? (fun dev => dev.id == idDispositivo) = some i)
    (hd : s.dispositivos[i]? = some d)
    (hc : d.estado = .conectado) :
    ∃ (op : Operacion) (q : OperacionCola),
      s.agregarOperacion r k idDispositivo tipoOperacion datos =
        (some op.id,
         { s with
            dispositivos := s.dispositivos.set i
              { d with operacionesPendientes := d.operacionesPendientes ++ [op] }
            colaOperaciones := s.colaOperaciones ++ [q] },
         k + 3) ∧
      op.estado = .pendiente ∧ q.estado = .pendiente ∧ q.id = op.id ∧
      op.id = "op_" ++ d.tipo.nombre ++ "_" ++ toString (r k) ∧
      op.dispositivo = d.id ∧ q.dispositivo = idDispositivo ∧
      op.timestamp = r (k + 1) ∧ q.timestamp = r (k + 2) ∧
      (r (k + 1) = r (k + 2) → op.timestamp = q.timestamp) := by
  unfold SimuladorSO.agregarOperacion
  simp only [hi, hd, hc, ne_eq, not_true_eq_false, if_false]
  by_cases he : tipoOperacion = "entrada"
  · refine ⟨{ id := "op_" ++ d.tipo.nombre ++ "_" ++ toString (r k), tipo := "entrada",
              estado := .pendiente, dispositivo := d.id, datos := none,
              timestamp := r (k + 1), completedAt := none },
            { id := "op_" ++ d.tipo.nombre ++ "_" ++ toString (r k),
              dispositivo := idDispositivo, tipo := tipoOperacion, estado := .pendiente,
              timestamp := r (k + 2), completedAt := none, failedAt := none },
            ?_, rfl, rfl, rfl, rfl, rfl, rfl, rfl, rfl, fun h => h⟩
    cases hT : d.tipo <;>
      simp [he, Dispositivo.leerDatos, Dispositivo.estadoTinta, Dispositivo.capturarAudio,
        Dispositivo.operacionEntrada, hT, hc]
  · refine ⟨{ id := "op_" ++ d.tipo.nombre ++ "_" ++ toString (r k), tipo := "salida",
              estado := .pendiente, dispositivo := d.id, datos := none,
              timestamp := r (k + 1), completedAt := none },
            { id := "op_" ++ d.tipo.nombre ++ "_" ++ toString (r k),
              dispositivo := idDispositivo, tipo := tipoOperacion, estado := .pendiente,
              timestamp := r (k + 2), completedAt := none, failedAt := none },
            ?_, rfl, rfl, rfl, rfl, rfl, rfl, rfl, rfl, fun h => h⟩
    cases hT : d.tipo <;>
      simp [he, Dispositivo.escribirDatos, Dispositivo.imprimir, Dispositivo.reproducirAudio,
        Dispositivo.operacionSalida, hT, hc]

/-- Witness of `agregarOperacion_conectado`: a USB device connected on a fresh
manager, with a clock advancing 1 ms per reading. -/
theorem agregarOperacion_conectado_witness :
    ((correr (relojPaso 1) [.conectar "usb"]).1.agregarOperacion (relojPaso 1) 1
        "dev_usb_1" "salida" none).2.2 = 4 := by
  obtain ⟨op, q, h, -⟩ := agregarOperacion_conectado (correr (relojPaso 1) [.conectar "usb"]).1
    (relojPaso 1) 1 0 (Dispositivo.nuevo .usb "dev_usb_1" 0) "dev_usb_1" "salida" none
    (by decide) (by decide) (by decide)
  rw [h]

/-- C1 (counterexample): with a clock that advances between the readings, the
record pushed to the device's list and the record pushed to the queue have the
same id but different timestamps. -/
theorem agregarOperacion_marcas_distintas :
    ((correr (relojPaso 1) [.conectar "usb", .agregar "dev_usb_1" "salida" none]).1.dispositivos.map
        (fun d => d.operacionesPendientes.map (fun op => (op.id, op.timestamp)))
      = [[("op_usb_1", 2)]]) ∧
    ((correr (relojPaso 1) [.conectar "usb", .agregar "dev_usb_1" "salida" none]).1.colaOperaciones.map
        (fun q => (q.id, q.timestamp))
      = [("op_usb_1", 3)]) := by
  decide

/-! ## completarOperacion and fallarOperacion -/

/-- C2 (as amended): `completarOperacion` on an id found in the queue returns
`true` and, whatever the previous status, sets `estado` to `completado` and
`completedAt` to the clock reading in the queue record and in the record of the
owning device; nothing else changes. -/
theorem completarOperacion_sobrescribe (s : SimuladorSO) (r : Reloj) (k n i j : Nat)
    (opId : String) (q : OperacionCola) (d : Dispositivo)
    (hn : s.colaOperaciones.findIdx? (fun op => op.id == opId) = some n)
    (hq : s.colaOperaciones[n]? = some q)
    (hi : s.dispositivos.findIdx? (fun dev => dev.id == q.dispositivo) = some i)
    (hd : s.dispositivos[i]? = some d)
    (hj : d.operacionesPendientes.findIdx? (fun op => op.id == opId) = some j) :
    s.completarOperacion r k opId =
      (true,
       { s with
          colaOperaciones := s.colaOperaciones.modify
            (fun op => { op with estado := .completado, completedAt := some (r k) }) n
          dispositivos := s.dispositivos.set i
            { d with operacionesPendientes := (d.operacionesPendientes.modify
                (fun op => { op with estado := .completado, completedAt := some (r (k + 1)) }) j) } },
       k + 2) := by
  unfold SimuladorSO.completarOperacion
  simp only [hn, List.getElem?_modify, hq, Option.map_eq_map, Option.map_some', if_true, hi, hd,
    Dispositivo.completarOperacion, hj]

/-- Witness of `completarOperacion_sobrescribe`: completing an operation that
was failed before. -/
theorem completarOperacion_sobrescribe_witness :
    ((correr (relojPaso 1) [.conectar "usb", .agregar "dev_usb_1" "salida" none,
        .fallar "op_usb_1"]).1.completarOperacion (relojPaso 1) 5 "op_usb_1").2.2 = 7 := by
  rw [completarOperacion_sobrescribe
    (correr (relojPaso 1) [.conectar "usb", .agregar "dev_usb_1" "salida" none,
      .fallar "op_usb_1"]).1 (relojPaso 1) 5 0 0 0 "op_usb_1" _ _
    (by decide) rfl (by decide) rfl (by decide)]

/-- C2 (counterexample): an operation that is `fallido` in the device's list
and in the queue is `completado` in both after `completarOperacion`. -/
theorem completarOperacion_sobre_fallido :
    ((correr (relojPaso 1) [.conectar "usb", .agregar "dev_usb_1" "salida" none,
        .fallar "op_usb_1"]).1.colaOperaciones.map (fun q => (q.estado, q.completedAt))
      = [(.fallido, none)]) ∧
    ((correr (relojPaso 1) [.conectar "usb", .agregar "dev_usb_1" "salida" none,
        .fallar "op_usb_1"]).1.dispositivos.map
        (fun d => d.operacionesPendientes.map (fun op => (op.estado, op.completedAt)))
      = [[(.fallido, none)]]) ∧
    ((correr (relojPaso 1) [.conectar "usb", .agregar "dev_usb_1" "salida" none,
        .fallar "op_usb_1", .completar "op_usb_1"]).1.colaOperaciones.map
        (fun q => (q.estado, q.completedAt))
      = [(.completado, some 5)]) ∧
    ((correr (relojPaso 1) [.conectar "usb", .agregar "dev_usb_1" "salida" none,
        .fallar "op_usb_1", .completar "op_usb_1"]).1.dispositivos.map
        (fun d => d.operacionesPendientes.map (fun op => (op.estado, op.completedAt)))
      = [[(.completado, some 6)]]) := by
  decide

/-- C3 (as amended): `fallarOperacion` on an id found in the queue whose owning
device is `conectado` returns `true`, sets the record to `fallido` in the queue
(with `failedAt`) and in the device's list, sets `enError`, and moves the
device's `estado` from `conectado` to `error`. -/
theorem fallarOperacion_conectado (s : SimuladorSO) (r : Reloj) (k n i j : Nat)
    (opId : String) (q : OperacionCola) (d : Dispositivo)
    (hn : s.colaOperaciones.findIdx? (fun op => op.id == opId) = some n)
    (hq : s.colaOperaciones[n]? = some q)
    (hi : s.dispositivos.findIdx? (fun dev => dev.id == q.dispositivo) = some i)
    (hd : s.dispositivos[i]? = some d)
    (_hc : d.estado = .conectado)
    (hj : d.operacionesPendientes.findIdx? (fun op => op.id == opId) = some j) :
    s.fallarOperacion r k opId =
      (true,
       { s with
          colaOperaciones := s.colaOperaciones.modify
            (fun op => { op with estado := .fallido, failedAt := some (r k) }) n
          dispositivos := s.dispositivos.set i
            { d with
                operacionesPendientes := (d.operacionesPendientes.modify
                  (fun op => { op with estado := .fallido }) j)
                enError := true
                estado := .error
                estadoVisible := .error } },
       k + 1) := by
  unfold SimuladorSO.fallarOperacion
  simp only [hn, List.getElem?_modify, hq, Option.map_eq_map, Option.map_some', if_true, hi, hd,
    Dispositivo.fallarOperacion, hj]

/-- Witness of `fallarOperacion_conectado`. -/
theorem fallarOperacion_conectado_witness :
    ((correr (relojPaso 1) [.conectar "impresora", .agregar "dev_impresora_1" "salida" none]).1.fallarOperacion
        (relojPaso 1) 4 "op_impresora_1").2.2 = 5 := by
  rw [fallarOperacion_conectado
    (correr (relojPaso 1) [.conectar "impresora", .agregar "dev_impresora_1" "salida" none]).1
    (relojPaso 1) 4 0 0 0 "op_impresora_1" _ _
    (by decide) rfl (by decide) rfl (by decide) (by decide)]

/-- C3 (counterexample): after connect(Printer), submit and fail, the device is
flagged but its `estado` is `error`, not `conectado`. -/
theorem fallarOperacion_deja_error :
    (correr (relojPaso 1) [.conectar "impresora", .agregar "dev_impresora_1" "salida" none,
        .fallar "op_impresora_1"]).1.dispositivos.map (fun d => (d.enError, d.estado))
      = [(true, .error)] := by
  decide

/-! ## recuperarDispositivo -/

theorem recuperarOperaciones_snd (r : Reloj) (ops : List Operacion) (k : Nat) :
    (recuperarOperaciones r k ops).2 =
      k + ops.countP (fun op => decide (op.estado = .fallido)) := by
  induction ops generalizing k with
  | nil => simp [recuperarOperaciones]
  | cons op ops ih =>
    by_cases h : op.estado = .fallido
    · simp [recuperarOperaciones, h, ih, List.countP_cons]
      omega
    · simp [recuperarOperaciones, h, ih, List.countP_cons]

theorem recuperarOperaciones_length (r : Reloj) (ops : List Operacion) (k : Nat) :
    (recuperarOperaciones r k ops).1.length = ops.length := by
  induction ops generalizing k with
  | nil => simp [recuperarOperaciones]
  | cons op ops ih =>
    by_cases h : op.estado = .fallido <;> simp [recuperarOperaciones, h, ih]

theorem recuperarOperaciones_getElem? (r : Reloj) (ops : List Operacion) (k j : Nat)
    (op : Operacion) (hj : ops[j]? = some op) :
    (recuperarOperaciones r k ops).1[j]? =
      some (if op.estado = .fallido then
              { op with estado := .pendiente
                        timestamp := r (k + (ops.take j).countP
                          (fun op => decide (op.estado = .fallido))) }
            else op) := by
  induction ops generalizing k j with
  | nil => simp at hj
  | cons a ops ih =>
    cases j with
    | zero =>
      simp only [List.getElem?_cons_zero, Option.some.injEq] at hj
      subst hj
      by_cases h : a.estado = .fallido <;> simp [recuperarOperaciones, h]
    | succ j =>
      simp only [List.getElem?_cons_succ] at hj
      by_cases h : a.estado = .fallido
      · simp only [recuperarOperaciones, h, if_true, List.getElem?_cons_succ, ih (k + 1) j hj,
          List.take_succ_cons, List.countP_cons, decide_True]
        simp only [if_true, Nat.add_assoc, Nat.add_comm 1]
      · simp only [recuperarOperaciones, h, if_false, List.getElem?_cons_succ, ih k j hj,
          List.take_succ_cons, List.countP_cons, decide_False]
        simp

/-- C4: `recuperarDispositivo` on a device found by its id.  If `enError` is
false it returns `false` and the manager is unchanged.  If `enError` is true it
returns `true`, clears `enError`, every record of the device that was `fallido`
becomes `pendiente` with `timestamp` set to the clock reading made for it
during the call, and every other record is unchanged. -/
theorem recuperarDispositivo_spec (s : SimuladorSO) (r : Reloj) (k i : Nat) (id : String)
    (d : Dispositivo)
    (hi : s.dispositivos.findIdx? (fun dev => dev.id == id) = some i)
    (hd : s.dispositivos[i]? = some d) :
    (d.enError = false → s.recuperarDispositivo r k id = (false, s, k)) ∧
    (d.enError = true →
      ∃ ops : List Operacion,
        s.recuperarDispositivo r k id =
          (true,
           { s with dispositivos := (s.dispositivos.set i
              { d with enError := false, estado := .conectado, estadoVisible := .conectado,
                       operacionesPendientes := ops }) },
           k + d.operacionesPendientes.countP (fun op => decide (op.estado = .fallido))) ∧
        ops.length = d.operacionesPendientes.length ∧
        ∀ (j : Nat) (op : Operacion), d.operacionesPendientes[j]? = some op →
          (op.estado = .fallido →
            ops[j]? = some { op with
              estado := .pendiente
              timestamp := r (k + (d.operacionesPendientes.take j).countP
                (fun op => decide (op.estado = .fallido))) }) ∧
          (op.estado ≠ .fallido → ops[j]? = some op)) := by
  constructor
  · intro he
    simp [SimuladorSO.recuperarDispositivo, hi, hd, he]
  · intro he
    refine ⟨(recuperarOperaciones r k d.operacionesPendientes).1, ?_,
      recuperarOperaciones_length r _ k, ?_⟩
    · simp [SimuladorSO.recuperarDispositivo, hi, hd, he, Dispositivo.recuperarDeError,
        recuperarOperaciones_snd]
    · intro j op hj
      have h := recuperarOperaciones_getElem? r d.operacionesPendientes k j op hj
      constructor
      · intro hf
        rw [h, if_pos hf]
      · intro hf
        rw [h, if_neg hf]

/-- Witness of `recuperarDispositivo_spec`: a printer whose only operation
failed. -/
theorem recuperarDispositivo_spec_witness :
    ((correr (relojPaso 1) [.conectar "impresora", .agregar "dev_impresora_1" "salida" none,
        .fallar "op_impresora_1"]).1.recuperarDispositivo (relojPaso 1) 5 "dev_impresora_1").2.2
      = 6 := by
  obtain ⟨ops, h, -⟩ := (recuperarDispositivo_spec
    (correr (relojPaso 1) [.conectar "impresora", .agregar "dev_impresora_1" "salida" none,
        .fallar "op_impresora_1"]).1 (relojPaso 1) 5 0 "dev_impresora_1" _
    (by decide) rfl).2 (by decide)
  rw [h]
  show 5 + List.countP (fun op : Operacion => decide (op.estado = .fallido)) _ = 6
  decide

/-! ## enError, estado and failed records in reachable states -/

theorem mem_modify_cases {α : Type} (f : α → α) (n : Nat) (l : List α) (x : α)
    (h : x ∈ l.modify f n) : x ∈ l ∨ ∃ a ∈ l, x = f a := by
  by_cases hn : n < l.length
  · rw [List.modify_eq_set_get f hn] at h
    rcases List.mem_or_eq_of_mem_set h with h | h
    · exact Or.inl h
    · exact Or.inr ⟨l.get ⟨n, hn⟩, List.get_mem _ _ _, h⟩
  · rw [List.modify_eq_self (Nat.le_of_not_lt hn)] at h
    exact Or.inl h

theorem mem_of_getElem?_eq {α : Type} {l : List α} {i : Nat} {a : α} (h : l[i]? = some a) :
    a ∈ l :=
  List.mem_iff_getElem?.mpr ⟨i, h⟩

theorem foldl_preserva {α β : Type} (P : β → Prop) (f : β → α → β)
    (h : ∀ b a, P b → P (f b a)) (l : List α) (b : β) (hb : P b) : P (l.foldl f b) := by
  induction l generalizing b with
  | nil => exact hb
  | cons a l ih => exact ih (f b a) (h b a hb)

theorem invSimulador_set (s : SimuladorSO) (i : Nat) (d : Dispositivo) (cola : List OperacionCola)
    (m : Manejadores) (n : Nat) (b : Bool) (t : Nat)
    (hs : InvSimulador s) (hd : InvDispositivo d) :
    InvSimulador { dispositivos := s.dispositivos.set i d, colaOperaciones := cola,
                   manejadores := m, nextId := n, autoCompleteInterval := b,
                   autoCompleteTime := t } := by
  intro x hx
  rcases List.mem_or_eq_of_mem_set hx with h | h
  · exact hs x h
  · exact h ▸ hd

theorem invSimulador_nuevo : InvSimulador SimuladorSO.nuevo := by
  intro d hd
  simp [SimuladorSO.nuevo] at hd

theorem invSimulador_conectar (s : SimuladorSO) (r : Reloj) (k : Nat) (tipo : String)
    (hs : InvSimulador s) : InvSimulador (s.conectarDispositivo r k tipo).2.1 := by
  unfold SimuladorSO.conectarDispositivo
  cases hT : Tipo.deNombre tipo with
  | none => exact hs
  | some t =>
    intro d hd
    simp only [SimuladorSO.iniciarAutoCompletado] at hd
    have hd2 : d ∈ s.dispositivos ++
        [Dispositivo.nuevo t ("dev_" ++ tipo ++ "_" ++ toString s.nextId) (r k)] := by
      split at hd <;> exact hd
    rcases List.mem_append.mp hd2 with h | h
    · exact hs d h
    · simp only [List.mem_singleton] at h
      subst h
      simp [InvDispositivo, Dispositivo.nuevo]

theorem invSimulador_of_set (s t : SimuladorSO) (i : Nat) (d : Dispositivo)
    (h : t.dispositivos = s.dispositivos.set i d)
    (hs : InvSimulador s) (hd : InvDispositivo d) : InvSimulador t := by
  intro x hx
  rw [h] at hx
  rcases List.mem_or_eq_of_mem_set hx with h | h
  · exact hs x h
  · exact h ▸ hd

theorem invSimulador_expulsar (s : SimuladorSO) (id : String) (hs : InvSimulador s) :
    InvSimulador (s.expulsarDispositivo id).2 := by
  cases hi : s.dispositivos.findIdx? (fun dev => dev.id == id) with
  | none => simpa only [SimuladorSO.expulsarDispositivo, hi] using hs
  | some i =>
    cases hd : s.dispositivos[i]? with
    | none => simpa only [SimuladorSO.expulsarDispositivo, hi, hd] using hs
    | some d =>
      refine invSimulador_of_set s _ i _ ?_ hs
        (?_ : InvDispositivo { d.expulsar with operacionesPendientes :=
          (d.expulsar.operacionesPendientes.map
            (fun op => if op.estado = .pendiente then { op with estado := .cancelado } else op)) })
      · simp only [SimuladorSO.expulsarDispositivo, hi, hd]
        split <;> rfl
      · simp [InvDispositivo, Dispositivo.expulsar]

theorem recuperarOperaciones_sin_fallido (r : Reloj) (ops : List Operacion) (k : Nat) :
    ∀ op ∈ (recuperarOperaciones r k ops).1, op.estado ≠ .fallido := by
  induction ops generalizing k with
  | nil => simp [recuperarOperaciones]
  | cons a ops ih =>
    intro op hop
    by_cases h : a.estado = .fallido
    · simp only [recuperarOperaciones, h, if_true, List.mem_cons] at hop
      rcases hop with rfl | hop
      · simp
      · exact ih (k + 1) op hop
    · simp only [recuperarOperaciones, h, if_false, List.mem_cons] at hop
      rcases hop with rfl | hop
      · exact h
      · exact ih k op hop

theorem invSimulador_recuperar (s : SimuladorSO) (r : Reloj) (k : Nat) (id : String)
    (hs : InvSimulador s) : InvSimulador (s.recuperarDispositivo r k id).2.1 := by
  cases hi : s.dispositivos.findIdx? (fun dev => dev.id == id) with
  | none => simpa only [SimuladorSO.recuperarDispositivo, hi] using hs
  | some i =>
    cases hd : s.dispositivos[i]? with
    | none => simpa only [SimuladorSO.recuperarDispositivo, hi, hd] using hs
    | some d =>
      by_cases he : d.enError = true
      · refine invSimulador_of_set s _ i (d.recuperarDeError r k).2.1 ?_ hs ?_
        · simp only [SimuladorSO.recuperarDispositivo, hi, hd, he, if_true]
        · simp only [Dispositivo.recuperarDeError, he, if_true, InvDispositivo]
          exact ⟨by simp, fun _ => recuperarOperaciones_sin_fallido r _ k⟩
      · simpa only [SimuladorSO.recuperarDispositivo, hi, hd, he] using hs

theorem invDispositivo_agregar (d : Dispositivo) (op : Operacion) (hd : InvDispositivo d)
    (hop : op.estado = .pendiente) :
    InvDispositivo { d with operacionesPendientes := d.operacionesPendientes ++ [op] } := by
  refine ⟨hd.1, fun hc x hx => ?_⟩
  rcases List.mem_append.mp hx with h | h
  · exact hd.2 hc x h
  · simp only [List.mem_singleton] at h
    subst h
    simp [hop]

theorem invSimulador_agregar (s : SimuladorSO) (r : Reloj) (k : Nat)
    (idDispositivo tipoOperacion : String) (datos : Option String)
    (hs : InvSimulador s) :
    InvSimulador (s.agregarOperacion r k idDispositivo tipoOperacion datos).2.1 := by
  cases hi : s.dispositivos.findIdx? (fun dev => dev.id == idDispositivo) with
  | none => simpa [SimuladorSO.agregarOperacion, hi] using hs
  | some i =>
    cases hd : s.dispositivos[i]? with
    | none => simpa [SimuladorSO.agregarOperacion, hi, hd] using hs
    | some d =>
      by_cases hc : d.estado = .conectado
      · obtain ⟨op, hop, h⟩ :=
          agregarOperacion_dispositivos s r k i d idDispositivo tipoOperacion datos hi hd hc
        exact invSimulador_of_set s _ i _ h hs
          (invDispositivo_agregar d op (hs d (mem_of_getElem?_eq hd)) hop)
      · simpa [SimuladorSO.agregarOperacion, hi, hd, hc] using hs

theorem invDispositivo_completar (d : Dispositivo) (r : Reloj) (k : Nat) (opId : String)
    (hd : InvDispositivo d) : InvDispositivo (d.completarOperacion r k opId).2.1 := by
  unfold Dispositivo.completarOperacion
  cases hj : d.operacionesPendientes.findIdx? (fun op => op.id == opId) with
  | none => exact hd
  | some j =>
    refine ⟨hd.1, fun hc x hx => ?_⟩
    rcases mem_modify_cases _ _ _ _ hx with h | ⟨a, -, rfl⟩
    · exact hd.2 hc x h
    · simp

theorem invSimulador_completar (s : SimuladorSO) (r : Reloj) (k : Nat) (opId : String)
    (hs : InvSimulador s) : InvSimulador (s.completarOperacion r k opId).2.1 := by
  unfold SimuladorSO.completarOperacion
  cases hn : s.colaOperaciones.findIdx? (fun op => op.id == opId) with
  | none => exact hs
  | some n =>
    simp only
    split
    · exact hs
    · split
      · exact hs
      · split
        · exact hs
        · rename_i d hd
          apply invSimulador_set _ _ _ _ _ _ _ _ hs
          exact invDispositivo_completar d r (k + 1) opId (hs d (mem_of_getElem?_eq hd))

theorem invDispositivo_fallar (d : Dispositivo) (opId : String)
    (hd : InvDispositivo d) : InvDispositivo (d.fallarOperacion opId).2 := by
  unfold Dispositivo.fallarOperacion
  cases hj : d.operacionesPendientes.findIdx? (fun op => op.id == opId) with
  | none => exact hd
  | some j => simp [InvDispositivo]

theorem invSimulador_fallar (s : SimuladorSO) (r : Reloj) (k : Nat) (opId : String)
    (hs : InvSimulador s) : InvSimulador (s.fallarOperacion r k opId).2.1 := by
  unfold SimuladorSO.fallarOperacion
  cases hn : s.colaOperaciones.findIdx? (fun op => op.id == opId) with
  | none => exact hs
  | some n =>
    simp only
    split
    · exact hs
    · split
      · exact hs
      · split
        · exact hs
        · rename_i d hd
          apply invSimulador_set _ _ _ _ _ _ _ _ hs
          exact invDispositivo_fallar d opId (hs d (mem_of_getElem?_eq hd))

theorem invSimulador_barridoOperacion (r : Reloj) (ahora i : Nat) (st : SimuladorSO × Nat)
    (j : Nat) (hs : InvSimulador st.1) : InvSimulador (barridoOperacion r ahora i st j).1 := by
  unfold barridoOperacion
  split
  · exact hs
  · split
    · exact hs
    · split
      · exact invSimulador_completar st.1 r st.2 _ hs
      · exact hs

theorem invSimulador_barridoDispositivo (r : Reloj) (ahora : Nat) (st : SimuladorSO × Nat)
    (i : Nat) (hs : InvSimulador st.1) : InvSimulador (barridoDispositivo r ahora st i).1 := by
  unfold barridoDispositivo
  split
  · exact hs
  · split
    · exact hs
    · exact foldl_preserva (fun st => InvSimulador st.1) _
        (fun b a hb => invSimulador_barridoOperacion r ahora i b a hb) _ st hs

theorem invSimulador_tic (s : SimuladorSO) (r : Reloj) (k : Nat) (hs : InvSimulador s) :
    InvSimulador (s.completarOperacionesPendientes r k).1 := by
  unfold SimuladorSO.completarOperacionesPendientes
  exact foldl_preserva (fun st => InvSimulador st.1) _
    (fun b a hb => invSimulador_barridoDispositivo r (r k) b a hb) _ (s, k + 1) hs

theorem invSimulador_ejecutar (r : Reloj) (st : SimuladorSO × Nat) (c : Comando)
    (hs : InvSimulador st.1) : InvSimulador (ejecutar r st c).1 := by
  cases c with
  | conectar tipo => exact invSimulador_conectar st.1 r st.2 tipo hs
  | expulsar id => exact invSimulador_expulsar st.1 id hs
  | recuperar id => exact invSimulador_recuperar st.1 r st.2 id hs
  | agregar a b c => exact invSimulador_agregar st.1 r st.2 a b c hs
  | completar opId => exact invSimulador_completar st.1 r st.2 opId hs
  | fallar opId => exact invSimulador_fallar st.1 r st.2 opId hs
  | tic => exact invSimulador_tic st.1 r st.2 hs

theorem invSimulador_alcanzable (s : SimuladorSO) (h : Alcanzable s) : InvSimulador s := by
  obtain ⟨r, cs, rfl⟩ := h
  exact foldl_preserva (fun st => InvSimulador st.1) _
    (fun b a hb => invSimulador_ejecutar r b a hb) cs (SimuladorSO.nuevo, 0) invSimulador_nuevo

/-- C9 (as amended): in every reachable state, for every device, `enError` is
true exactly when `estado` is `error`; a device whose `estado` is `conectado`
has `enError` false and no `fallido` record in its list; and a device that is
not `desconectado` and has a `fallido` record has `enError` true. -/
theorem alcanzable_enError (s : SimuladorSO) (h : Alcanzable s) :
    ∀ d ∈ s.dispositivos,
      (d.enError = true ↔ d.estado = .error) ∧
      (d.estado = .conectado →
        d.enError = false ∧ ∀ op ∈ d.operacionesPendientes, op.estado ≠ .fallido) ∧
      (d.estado ≠ .desconectado → (∃ op ∈ d.operacionesPendientes, op.estado = .fallido) →
        d.enError = true) := by
  intro d hd
  obtain ⟨h1, h2⟩ := invSimulador_alcanzable s h d hd
  refine ⟨h1, fun hc => ⟨?_, h2 hc⟩, fun hnd ⟨op, hop, hf⟩ => ?_⟩
  · cases he : d.enError with
    | false => rfl
    | true => rw [h1.mp he] at hc; cases hc
  · cases hE : d.estado with
    | conectado => exact absurd hf (h2 hE op hop)
    | error => exact h1.mpr hE
    | desconectado => exact absurd hE hnd

/-- Witness of `alcanzable_enError`: the device of the state after connect,
submit, fail. -/
theorem alcanzable_enError_witness :
    Alcanzable (correr (relojPaso 1) [.conectar "usb", .agregar "dev_usb_1" "salida" none,
        .fallar "op_usb_1"]).1 ∧
    (((correr (relojPaso 1) [.conectar "usb", .agregar "dev_usb_1" "salida" none,
        .fallar "op_usb_1"]).1.dispositivos.headD (Dispositivo.nuevo .usb "" 0)).enError = true ↔
     ((correr (relojPaso 1) [.conectar "usb", .agregar "dev_usb_1" "salida" none,
        .fallar "op_usb_1"]).1.dispositivos.headD (Dispositivo.nuevo .usb "" 0)).estado = .error) :=
  ⟨⟨relojPaso 1, _, rfl⟩,
   (alcanzable_enError
      (correr (relojPaso 1) [.conectar "usb", .agregar "dev_usb_1" "salida" none,
        .fallar "op_usb_1"]).1
      ⟨relojPaso 1, [.conectar "usb", .agregar "dev_usb_1" "salida" none, .fallar "op_usb_1"],
        rfl⟩ _ (by decide)).1⟩

/-- C9 (counterexample): after connect, submit and fail the state is reachable
and its device has `enError` true although its `estado` is not `conectado`; the
claimed equivalence fails. -/
theorem enError_sin_conectado :
    ∃ s, Alcanzable s ∧ ∃ d ∈ s.dispositivos,
      ¬ (d.enError = true ↔
          (d.estado = .conectado ∧ ∃ op ∈ d.operacionesPendientes, op.estado = .fallido)) := by
  refine ⟨_, ⟨relojPaso 1, [.conectar "usb", .agregar "dev_usb_1" "salida" none,
    .fallar "op_usb_1"], rfl⟩, ?_⟩
  decide

/-! ## The queue copies after expulsarDispositivo and recuperarDispositivo -/

/-- C5 (the code at the failing input): `expulsarDispositivo` never writes to
`colaOperaciones`; after connect(USB), one submit and eject, the call returned
`true`, the device is `desconectado` with `enError` false, its record is
`cancelado` and the active count of `usb` is back to 0, but the queue record of
the same operation is still `pendiente`. -/
theorem expulsarDispositivo_no_actualiza_cola :
    (∀ (s : SimuladorSO) (id : String),
      (s.expulsarDispositivo id).2.colaOperaciones = s.colaOperaciones) ∧
    ((correr (relojPaso 1) [.conectar "usb", .agregar "dev_usb_1" "salida" none]).1.expulsarDispositivo
        "dev_usb_1").1 = true ∧
    ((correr (relojPaso 1) [.conectar "usb", .agregar "dev_usb_1" "salida" none,
        .expulsar "dev_usb_1"]).1.dispositivos.map
        (fun d => (d.estado, d.enError, d.operacionesPendientes.map (fun op => (op.id, op.estado))))
      = [(.desconectado, false, [("op_usb_1", .cancelado)])]) ∧
    ((correr (relojPaso 1) [.conectar "usb", .agregar "dev_usb_1" "salida" none,
        .expulsar "dev_usb_1"]).1.manejadores.usb.activos = 0) ∧
    ((correr (relojPaso 1) [.conectar "usb", .agregar "dev_usb_1" "salida" none,
        .expulsar "dev_usb_1"]).1.colaOperaciones.map (fun q => (q.id, q.estado))
      = [("op_usb_1", .pendiente)]) := by
  refine ⟨fun s id => ?_, by decide, by decide, by decide, by decide⟩
  unfold SimuladorSO.expulsarDispositivo
  split
  · rfl
  · split
    · rfl
    · simp only
      split <;> rfl

/-- C10 (the code at the failing input): the state after connect(Printer),
submit, fail and recoverDevice is reachable, and in it the device's copy of the
operation is `pendiente` while the queue copy with the same id is `fallido`. -/
theorem copias_discrepan_tras_recuperar :
    Alcanzable (correr (relojPaso 1) [.conectar "impresora",
        .agregar "dev_impresora_1" "salida" none, .fallar "op_impresora_1",
        .recuperar "dev_impresora_1"]).1 ∧
    ((correr (relojPaso 1) [.conectar "impresora", .agregar "dev_impresora_1" "salida" none,
        .fallar "op_impresora_1", .recuperar "dev_impresora_1"]).1.dispositivos.map
        (fun d => d.operacionesPendientes.map (fun op => (op.id, op.estado)))
      = [[("op_impresora_1", .pendiente)]]) ∧
    ((correr (relojPaso 1) [.conectar "impresora", .agregar "dev_impresora_1" "salida" none,
        .fallar "op_impresora_1", .recuperar "dev_impresora_1"]).1.colaOperaciones.map
        (fun q => (q.id, q.estado))
      = [("op_impresora_1", .fallido)]) := by
  exact ⟨⟨relojPaso 1, _, rfl⟩, by decide, by decide⟩

/-- C8 (the code at the failing input): with a clock advancing 4000 ms per
reading, the state after connect(USB), submit, fail and recoverDevice is
reachable and its queue record is `fallido`; one tick of the sweep changes that
queue record to `completado`. -/
theorem barrido_completa_fallido_en_cola :
    Alcanzable (correr (relojPaso 4000) [.conectar "usb", .agregar "dev_usb_1" "salida" none,
        .fallar "op_usb_4000", .recuperar "dev_usb_1"]).1 ∧
    ((correr (relojPaso 4000) [.conectar "usb", .agregar "dev_usb_1" "salida" none,
        .fallar "op_usb_4000", .recuperar "dev_usb_1"]).1.colaOperaciones.map
        (fun q => (q.id, q.estado))
      = [("op_usb_4000", .fallido)]) ∧
    ((correr (relojPaso 4000) [.conectar "usb", .agregar "dev_usb_1" "salida" none,
        .fallar "op_usb_4000", .recuperar "dev_usb_1", .tic]).1.colaOperaciones.map
        (fun q => (q.id, q.estado))
      = [("op_usb_4000", .completado)]) := by
  exact ⟨⟨relojPaso 4000, _, rfl⟩, by decide, by decide⟩

/-! ## completarOperacion as marks at positions -/

theorem findIdx?_modify_of_eq {α : Type} (p : α → Bool) (f : α → α) (h : ∀ a, p (f a) = p a)
    (l : List α) (n : Nat) : List.findIdx? p (l.modify f n) = List.findIdx? p l := by
  induction l generalizing n with
  | nil => simp
  | cons a l ih =>
    cases n with
    | zero => simp [List.findIdx?_cons, h]
    | succ n => simp [List.findIdx?_cons, ih]

theorem modify_comm {α : Type} (f g : α → α) (h : ∀ a, f (g a) = g (f a)) (l : List α)
    (n m : Nat) : (l.modify g m).modify f n = (l.modify f n).modify g m := by
  apply List.ext_getElem?
  intro i
  simp only [List.getElem?_modify]
  cases l[i]? with
  | none => rfl
  | some a =>
    simp only [Option.map_eq_map, Option.map_some', Option.some.injEq]
    by_cases h1 : n = i <;> by_cases h2 : m = i <;> simp [h1, h2, h]

theorem modify_idem {α : Type} (f : α → α) (h : ∀ a, f (f a) = f a) (l : List α)
    (n : Nat) : (l.modify f n).modify f n = l.modify f n := by
  apply List.ext_getElem?
  intro i
  simp only [List.getElem?_modify]
  cases l[i]? with
  | none => rfl
  | some a =>
    simp only [Option.map_eq_map, Option.map_some', Option.some.injEq]
    by_cases h1 : n = i <;> simp [h1, h]

theorem set_eq_modify_of_getElem? {α : Type} (f : α → α) (l : List α) (n : Nat) (a : α)
    (h : l[n]? = some a) : l.set n (f a) = l.modify f n := by
  apply List.ext_getElem?
  intro i
  simp only [List.getElem?_modify, List.getElem?_set]
  by_cases h1 : n = i
  · subst h1
    have hlt : n < l.length := by
      rcases List.getElem?_eq_some.mp h with ⟨hlt, -⟩
      exact hlt
    simp [h, hlt]
  · simp [h1]

theorem dispositivo_completarOperacion_eq (d : Dispositivo) (r : Reloj) (k : Nat) (x : String) :
    (d.completarOperacion r k x).2.1 = completarEnDispositivo (r k) x d := by
  unfold Dispositivo.completarOperacion completarEnDispositivo
  cases d.operacionesPendientes.findIdx? (fun op => op.id == x) <;> rfl

theorem completarOperacion_eq (s : SimuladorSO) (r : Reloj) (k : Nat) (x : String) :
    (s.completarOperacion r k x).2.1 =
      { s with
        colaOperaciones := completarEnCola (r k) x s.colaOperaciones
        dispositivos := completarEnDispositivos (r (k + 1)) x s.colaOperaciones s.dispositivos } := by
  unfold SimuladorSO.completarOperacion completarEnCola completarEnDispositivos
  cases hn : s.colaOperaciones.findIdx? (fun op => op.id == x) with
  | none => rfl
  | some n =>
    obtain ⟨q, hq, -⟩ := getElem?_of_findIdx? hn
    simp only [List.getElem?_modify, hq, Option.map_eq_map, Option.map_some', if_true]
    cases hi : s.dispositivos.findIdx? (fun dev => dev.id == q.dispositivo) with
    | none => rfl
    | some i =>
      obtain ⟨d, hd, -⟩ := getElem?_of_findIdx? hi
      simp only [hd, dispositivo_completarOperacion_eq]
      rw [set_eq_modify_of_getElem? (completarEnDispositivo (r (k + 1)) x) _ _ _ hd]
      rfl

theorem completarOperacion_relojFijo (s : SimuladorSO) (t k : Nat) (x : String) :
    (s.completarOperacion (relojFijo t) k x).2.1 = completarFijo t x s := by
  rw [completarOperacion_eq]
  rfl

theorem completarEnDispositivos_eq (t : Nat) (x : String) (cola : List OperacionCola)
    (ds : List Dispositivo) :
    completarEnDispositivos t x cola ds =
      match posDispositivo x cola ds with
      | none => ds
      | some i => ds.modify (completarEnDispositivo t x) i := by
  unfold completarEnDispositivos posDispositivo
  cases cola.findIdx? (fun q => q.id == x) with
  | none => rfl
  | some n =>
    simp only
    cases cola[n]? with
    | none => rfl
    | some q => rfl

theorem findIdx?_marcaOperacion (t : Nat) (x : String) (l : List Operacion) (n : Nat) :
    (l.modify (marcaOperacion t) n).findIdx? (fun op => op.id == x) =
      l.findIdx? (fun op => op.id == x) :=
  findIdx?_modify_of_eq (fun op => op.id == x) (marcaOperacion t) (fun _ => rfl) l n

theorem findIdx?_marcaCola (t : Nat) (x : String) (l : List OperacionCola) (n : Nat) :
    (l.modify (marcaCola t) n).findIdx? (fun q => q.id == x) =
      l.findIdx? (fun q => q.id == x) :=
  findIdx?_modify_of_eq (fun q => q.id == x) (marcaCola t) (fun _ => rfl) l n

theorem findIdx?_completarEnCola (t : Nat) (x y : String) (cola : List OperacionCola) :
    (completarEnCola t y cola).findIdx? (fun q => q.id == x) =
      cola.findIdx? (fun q => q.id == x) := by
  unfold completarEnCola
  cases hy : cola.findIdx? (fun q => q.id == y) with
  | none => rfl
  | some n => exact findIdx?_marcaCola t x cola n

theorem getElem?_completarEnCola_dispositivo (t : Nat) (y : String) (cola : List OperacionCola)
    (n : Nat) :
    ((completarEnCola t y cola)[n]?).map (fun q => q.dispositivo) =
      (cola[n]?).map (fun q => q.dispositivo) := by
  unfold completarEnCola
  cases cola.findIdx? (fun q => q.id == y) with
  | none => rfl
  | some m =>
    simp only [List.getElem?_modify]
    cases cola[n]? with
    | none => rfl
    | some q =>
      by_cases h : m = n <;> simp [h, marcaCola]

theorem completarEnDispositivo_id (t : Nat) (x : String) (d : Dispositivo) :
    (completarEnDispositivo t x d).id = d.id := by
  unfold completarEnDispositivo
  cases d.operacionesPendientes.findIdx? (fun op => op.id == x) <;> rfl

theorem findIdx?_completarEnDispositivos (t : Nat) (y z : String) (cola : List OperacionCola)
    (ds : List Dispositivo) :
    (completarEnDispositivos t y cola ds).findIdx? (fun dev => dev.id == z) =
      ds.findIdx? (fun dev => dev.id == z) := by
  rw [completarEnDispositivos_eq]
  cases posDispositivo y cola ds with
  | none => rfl
  | some i =>
    exact findIdx?_modify_of_eq _ _ (fun d => by simp [completarEnDispositivo_id]) _ _

theorem posDispositivo_completar (t t' : Nat) (x y : String) (cola cola' : List OperacionCola)
    (ds : List Dispositivo) :
    posDispositivo x (completarEnCola t y cola) (completarEnDispositivos t' y cola' ds) =
      posDispositivo x cola ds := by
  unfold posDispositivo
  rw [findIdx?_completarEnCola]
  cases cola.findIdx? (fun q => q.id == x) with
  | none => rfl
  | some n =>
    simp only
    have h := getElem?_completarEnCola_dispositivo t y cola n
    cases h1 : (completarEnCola t y cola)[n]? with
    | none =>
      cases h2 : cola[n]? with
      | none => rfl
      | some q => rw [h1, h2] at h; simp at h
    | some q' =>
      cases h2 : cola[n]? with
      | none => rw [h1, h2] at h; simp at h
      | some q =>
        rw [h1, h2] at h
        simp only [Option.map_some', Option.some.injEq] at h
        simp only [h, findIdx?_completarEnDispositivos]

theorem completarEnDispositivo_comm (t : Nat) (x y : String) (d : Dispositivo) :
    completarEnDispositivo t x (completarEnDispositivo t y d) =
      completarEnDispositivo t y (completarEnDispositivo t x d) := by
  unfold completarEnDispositivo
  cases hy : d.operacionesPendientes.findIdx? (fun op => op.id == y) with
  | none =>
    cases hx : d.operacionesPendientes.findIdx? (fun op => op.id == x) with
    | none => simp only [hx, hy]
    | some j =>
      simp only [hx, findIdx?_marcaOperacion, hy]
  | some j' =>
    cases hx : d.operacionesPendientes.findIdx? (fun op => op.id == x) with
    | none =>
      simp only [hx, findIdx?_marcaOperacion, hy]
    | some j =>
      simp only [hx, findIdx?_marcaOperacion, hy]
      rw [modify_comm _ _ (fun _ => rfl)]

theorem completarEnCola_comm (t : Nat) (x y : String) (cola : List OperacionCola) :
    completarEnCola t x (completarEnCola t y cola) =
      completarEnCola t y (completarEnCola t x cola) := by
  unfold completarEnCola
  cases hy : cola.findIdx? (fun q => q.id == y) with
  | none =>
    cases hx : cola.findIdx? (fun q => q.id == x) with
    | none => simp only [hx, hy]
    | some j =>
      simp only [hx, findIdx?_marcaCola, hy]
  | some j' =>
    cases hx : cola.findIdx? (fun q => q.id == x) with
    | none =>
      simp only [hx, findIdx?_marcaCola, hy]
    | some j =>
      simp only [hx, findIdx?_marcaCola, hy]
      rw [modify_comm _ _ (fun _ => rfl)]

theorem completarFijo_comm (t : Nat) (x y : String) (s : SimuladorSO) :
    completarFijo t x (completarFijo t y s) = completarFijo t y (completarFijo t x s) := by
  unfold completarFijo
  simp only [SimuladorSO.mk.injEq, and_true]
  refine ⟨?_, completarEnCola_comm t x y _⟩
  rw [completarEnDispositivos_eq t x, completarEnDispositivos_eq t y (completarEnCola t x _),
    posDispositivo_completar, posDispositivo_completar,
    completarEnDispositivos_eq t y, completarEnDispositivos_eq t x s.colaOperaciones]
  cases posDispositivo x s.colaOperaciones s.dispositivos with
  | none => rfl
  | some i =>
    cases posDispositivo y s.colaOperaciones s.dispositivos with
    | none => rfl
    | some i' =>
      simp only
      rw [modify_comm _ _ (completarEnDispositivo_comm t x y)]

theorem completarEnDispositivo_idem (t : Nat) (x : String) (d : Dispositivo) :
    completarEnDispositivo t x (completarEnDispositivo t x d) = completarEnDispositivo t x d := by
  unfold completarEnDispositivo
  cases hx : d.operacionesPendientes.findIdx? (fun op => op.id == x) with
  | none => simp only [hx]
  | some j =>
    simp only [hx, findIdx?_marcaOperacion]
    rw [modify_idem (marcaOperacion t) (fun _ => rfl)]

theorem completarFijo_idem (t : Nat) (x : String) (s : SimuladorSO) :
    completarFijo t x (completarFijo t x s) = completarFijo t x s := by
  unfold completarFijo
  simp only [SimuladorSO.mk.injEq, and_true]
  constructor
  · rw [completarEnDispositivos_eq t x, posDispositivo_completar,
      completarEnDispositivos_eq t x s.colaOperaciones]
    cases posDispositivo x s.colaOperaciones s.dispositivos with
    | none => rfl
    | some i =>
      simp only
      rw [modify_idem _ (completarEnDispositivo_idem t x)]
  · unfold completarEnCola
    cases hx : s.colaOperaciones.findIdx? (fun q => q.id == x) with
    | none => simp only [hx]
    | some j =>
      simp only [hx, findIdx?_marcaCola]
      rw [modify_idem (marcaCola t) (fun _ => rfl)]

/-! ## The sweep only completes: the relation between a state and its successors -/

theorem forall₂_modify {α : Type} {R : α → α → Prop} (hr : ∀ a, R a a) (f : α → α)
    (l : List α) (n : Nat) (h : ∀ a, l[n]? = some a → R a (f a)) :
    List.Forall₂ R l (l.modify f n) := by
  induction l generalizing n with
  | nil => simp
  | cons a l ih =>
    cases n with
    | zero =>
      rw [List.modify_zero_cons]
      exact List.Forall₂.cons (h a (List.getElem?_cons_zero ..)) (List.forall₂_same.mpr fun _ _ => hr _)
    | succ n =>
      rw [List.modify_succ_cons]
      exact List.Forall₂.cons (hr a) (ih n (fun b hb => h b (by simpa using hb)))

theorem forall₂_trans3 {α : Type} {R S T : α → α → Prop}
    (h : ∀ a b c, R a b → S b c → T a c) {l₁ l₂ l₃ : List α}
    (h₁ : List.Forall₂ R l₁ l₂) (h₂ : List.Forall₂ S l₂ l₃) : List.Forall₂ T l₁ l₃ := by
  induction h₁ generalizing l₃ with
  | nil => cases h₂; exact List.Forall₂.nil
  | cons hab _ ih =>
    cases h₂ with
    | cons hbc hrest => exact List.Forall₂.cons (h _ _ _ hab hbc) (ih hrest)

theorem forall₂_getElem?_right {α : Type} {R : α → α → Prop} {l l' : List α}
    (h : List.Forall₂ R l l') (n : Nat) (b : α) (hb : l'[n]? = some b) :
    ∃ a, l[n]? = some a ∧ R a b := by
  induction h generalizing n with
  | nil => simp at hb
  | cons hab _ ih =>
    cases n with
    | zero =>
      simp only [List.getElem?_cons_zero, Option.some.injEq] at hb
      subst hb
      exact ⟨_, List.getElem?_cons_zero .., hab⟩
    | succ n =>
      simp only [List.getElem?_cons_succ] at hb ⊢
      exact ih n hb

theorem forall₂_getElem?_left {α : Type} {R : α → α → Prop} {l l' : List α}
    (h : List.Forall₂ R l l') (n : Nat) (a : α) (ha : l[n]? = some a) :
    ∃ b, l'[n]? = some b ∧ R a b := by
  induction h generalizing n with
  | nil => simp at ha
  | cons hab _ ih =>
    cases n with
    | zero =>
      simp only [List.getElem?_cons_zero, Option.some.injEq] at ha
      subst ha
      exact ⟨_, List.getElem?_cons_zero .., hab⟩
    | succ n =>
      simp only [List.getElem?_cons_succ] at ha ⊢
      exact ih n ha

theorem relOperacion_refl (X : String → Prop) (a : Operacion) : RelOperacion X a a :=
  ⟨rfl, rfl, Or.inl rfl⟩

theorem relCola_refl (X : String → Prop) (q : OperacionCola) : RelCola X q q :=
  ⟨rfl, rfl, Or.inl rfl⟩

theorem relDispositivo_refl (X : String → Prop) (d : Dispositivo) : RelDispositivo X d d :=
  ⟨rfl, rfl, List.forall₂_same.mpr fun _ _ => relOperacion_refl X _⟩

theorem rel_refl (X : String → Prop) (s : SimuladorSO) : Rel X s s :=
  ⟨List.forall₂_same.mpr fun _ _ => relDispositivo_refl X _,
   List.forall₂_same.mpr fun _ _ => relCola_refl X _, rfl⟩

theorem relOperacion_trans (X : String → Prop) (a b c : Operacion)
    (h₁ : RelOperacion X a b) (h₂ : RelOperacion X b c) : RelOperacion X a c := by
  obtain ⟨i1, t1, e1⟩ := h₁
  obtain ⟨i2, t2, e2⟩ := h₂
  refine ⟨i2.trans i1, t2.trans t1, ?_⟩
  rcases e2 with e2 | ⟨e2, x2⟩
  · rcases e1 with e1 | ⟨e1, x1⟩
    · exact Or.inl (e2.trans e1)
    · exact Or.inr ⟨e2.trans e1, x1⟩
  · exact Or.inr ⟨e2, i1 ▸ x2⟩

theorem relCola_trans (X : String → Prop) (a b c : OperacionCola)
    (h₁ : RelCola X a b) (h₂ : RelCola X b c) : RelCola X a c := by
  obtain ⟨i1, t1, e1⟩ := h₁
  obtain ⟨i2, t2, e2⟩ := h₂
  refine ⟨i2.trans i1, t2.trans t1, ?_⟩
  rcases e2 with e2 | ⟨e2, x2⟩
  · rcases e1 with e1 | ⟨e1, x1⟩
    · exact Or.inl (e2.trans e1)
    · exact Or.inr ⟨e2.trans e1, x1⟩
  · exact Or.inr ⟨e2, i1 ▸ x2⟩

theorem relDispositivo_trans (X : String → Prop) (a b c : Dispositivo)
    (h₁ : RelDispositivo X a b) (h₂ : RelDispositivo X b c) : RelDispositivo X a c :=
  ⟨h₂.1.trans h₁.1, h₂.2.1.trans h₁.2.1,
   forall₂_trans3 (relOperacion_trans X) h₁.2.2 h₂.2.2⟩

theorem rel_trans (X : String → Prop) (s t u : SimuladorSO)
    (h₁ : Rel X s t) (h₂ : Rel X t u) : Rel X s u :=
  ⟨forall₂_trans3 (relDispositivo_trans X) h₁.1 h₂.1,
   forall₂_trans3 (relCola_trans X) h₁.2.1 h₂.2.1, h₂.2.2.trans h₁.2.2⟩

theorem rel_mono (X Y : String → Prop) (hXY : ∀ x, X x → Y x) (s t : SimuladorSO)
    (h : Rel X s t) : Rel Y s t := by
  refine ⟨h.1.imp ?_, h.2.1.imp ?_, h.2.2⟩
  · intro d e hde
    refine ⟨hde.1, hde.2.1, hde.2.2.imp ?_⟩
    intro a b hab
    exact ⟨hab.1, hab.2.1, hab.2.2.imp id (fun hh => ⟨hh.1, hXY _ hh.2⟩)⟩
  · intro p q hpq
    exact ⟨hpq.1, hpq.2.1, hpq.2.2.imp id (fun hh => ⟨hh.1, hXY _ hh.2⟩)⟩

theorem relDispositivo_completar (X : String → Prop) (t : Nat) (x : String) (hx : X x)
    (d : Dispositivo) : RelDispositivo X d (completarEnDispositivo t x d) := by
  unfold completarEnDispositivo
  cases hj : d.operacionesPendientes.findIdx? (fun op => op.id == x) with
  | none => exact relDispositivo_refl X d
  | some j =>
    refine ⟨rfl, rfl, forall₂_modify (relOperacion_refl X) _ _ _ ?_⟩
    intro a ha
    obtain ⟨a', ha', hp⟩ := getElem?_of_findIdx? hj
    rw [ha] at ha'
    cases ha'
    have hid : a.id = x := by simpa using hp
    exact ⟨rfl, rfl, Or.inr ⟨rfl, hid ▸ hx⟩⟩

theorem rel_completarOperacion (X : String → Prop) (s : SimuladorSO) (r : Reloj) (k : Nat)
    (x : String) (hx : X x) : Rel X s (s.completarOperacion r k x).2.1 := by
  rw [completarOperacion_eq]
  refine ⟨?_, ?_, rfl⟩
  · show List.Forall₂ _ _ (completarEnDispositivos _ _ _ _)
    rw [completarEnDispositivos_eq]
    cases posDispositivo x s.colaOperaciones s.dispositivos with
    | none => exact List.forall₂_same.mpr fun _ _ => relDispositivo_refl X _
    | some i =>
      exact forall₂_modify (relDispositivo_refl X) _ _ _
        (fun d _ => relDispositivo_completar X _ x hx d)
  · show List.Forall₂ _ _ (completarEnCola _ _ _)
    unfold completarEnCola
    cases hn : s.colaOperaciones.findIdx? (fun q => q.id == x) with
    | none => exact List.forall₂_same.mpr fun _ _ => relCola_refl X _
    | some n =>
      refine forall₂_modify (relCola_refl X) _ _ _ ?_
      intro a ha
      obtain ⟨a', ha', hp⟩ := getElem?_of_findIdx? hn
      rw [ha] at ha'
      cases ha'
      have hid : a.id = x := by simpa using hp
      exact ⟨rfl, rfl, Or.inr ⟨rfl, hid ▸ hx⟩⟩

theorem dispara_of_rel (X : String → Prop) (ahora : Nat) (s t : SimuladorSO) (h : Rel X s t)
    (i j : Nat) (x : String) (hd : Dispara ahora t i j x) : Dispara ahora s i j x := by
  obtain ⟨e, b, he, hc, hb, hp, hold, hid⟩ := hd
  obtain ⟨d, hd, hde⟩ := forall₂_getElem?_right h.1 i e he
  obtain ⟨a, ha, hab⟩ := forall₂_getElem?_right hde.2.2 j b hb
  refine ⟨d, a, hd, hde.2.1 ▸ hc, ha, ?_, ?_, hab.1 ▸ hid⟩
  · rcases hab.2.2 with h1 | ⟨h1, -⟩
    · rw [← h1]; exact hp
    · rw [hp] at h1; cases h1
  · rw [← hab.2.1, ← h.2.2]; exact hold

/-! ## Idempotence of the sweep at a fixed instant -/

theorem foldl_range_inv {β : Type} (f : β → Nat → β) (P : Nat → β → Prop)
    (h : ∀ n b, P n b → P (n + 1) (f b n)) (n : Nat) (b : β) (hb : P 0 b) :
    P n ((List.range n).foldl f b) := by
  induction n with
  | zero => simpa using hb
  | succ n ih =>
    rw [List.range_succ, List.foldl_append]
    exact h n _ ih

theorem barridoOperacion_cases (r : Reloj) (ahora i : Nat) (st : SimuladorSO × Nat) (j : Nat) :
    (barridoOperacion r ahora i st j = st ∧
      ∀ d op, st.1.dispositivos[i]? = some d → d.operacionesPendientes[j]? = some op →
        ¬ (op.estado = .pendiente ∧
            (ahora : Int) - (op.timestamp : Int) > (st.1.autoCompleteTime : Int))) ∨
    (∃ d op, st.1.dispositivos[i]? = some d ∧ d.operacionesPendientes[j]? = some op ∧
      op.estado = .pendiente ∧
      (ahora : Int) - (op.timestamp : Int) > (st.1.autoCompleteTime : Int) ∧
      barridoOperacion r ahora i st j = (st.1.completarOperacion r st.2 op.id).2) := by
  unfold barridoOperacion
  cases hd : st.1.dispositivos[i]? with
  | none => exact Or.inl ⟨rfl, fun d op h => by simp at h⟩
  | some d =>
    simp only
    cases hop : d.operacionesPendientes[j]? with
    | none =>
      refine Or.inl ⟨rfl, fun d' op h h' => ?_⟩
      simp only [Option.some.injEq] at h
      subst h
      rw [hop] at h'
      cases h'
    | some op =>
      simp only
      by_cases hc : op.estado = .pendiente ∧
          (ahora : Int) - (op.timestamp : Int) > (st.1.autoCompleteTime : Int)
      · rw [if_pos hc]
        exact Or.inr ⟨d, op, rfl, hop, hc.1, hc.2, rfl⟩
      · rw [if_neg hc]
        refine Or.inl ⟨rfl, fun d' op' h h' => ?_⟩
        simp only [Option.some.injEq] at h
        subst h
        rw [hop] at h'
        simp only [Option.some.injEq] at h'
        subst h'
        exact hc

theorem rel_barridoOperacion (r : Reloj) (ahora i : Nat) (st : SimuladorSO × Nat) (j : Nat) :
    Rel (fun _ => True) st.1 (barridoOperacion r ahora i st j).1 := by
  rcases barridoOperacion_cases r ahora i st j with ⟨h, -⟩ | ⟨d, op, -, -, -, -, h⟩
  · rw [h]; exact rel_refl _ _
  · rw [h]; exact rel_completarOperacion _ _ _ _ _ trivial

theorem rel_foldl_barridoOperacion (r : Reloj) (ahora i : Nat) (l : List Nat)
    (st : SimuladorSO × Nat) :
    Rel (fun _ => True) st.1 (l.foldl (barridoOperacion r ahora i) st).1 :=
  foldl_preserva (fun st' => Rel (fun _ => True) st.1 st'.1) _
    (fun b a hb => rel_trans _ _ _ _ hb (rel_barridoOperacion r ahora i b a)) l st
    (rel_refl _ _)

theorem rel_barridoDispositivo (r : Reloj) (ahora : Nat) (st : SimuladorSO × Nat) (i : Nat) :
    Rel (fun _ => True) st.1 (barridoDispositivo r ahora st i).1 := by
  unfold barridoDispositivo
  split
  · exact rel_refl _ _
  · split
    · exact rel_refl _ _
    · exact rel_foldl_barridoOperacion r ahora i _ st

theorem rel_barrido (s : SimuladorSO) (r : Reloj) (k : Nat) :
    Rel (fun _ => True) s (s.completarOperacionesPendientes r k).1 :=
  foldl_preserva (fun st' => Rel (fun _ => True) s st'.1) _
    (fun b a hb => rel_trans _ _ _ _ hb (rel_barridoDispositivo r (r k) b a)) _ (s, k + 1)
    (rel_refl _ _)

theorem hecho_completar (t : Nat) (x y : String) (s : SimuladorSO)
    (h : completarFijo t x s = s) :
    completarFijo t x (completarFijo t y s) = completarFijo t y s := by
  rw [completarFijo_comm, h]

theorem barridoOperacion_paso (t i n : Nat) (st : SimuladorSO × Nat)
    (h1 : ∀ i' j x, i' < i → Dispara t st.1 i' j x → completarFijo t x st.1 = st.1)
    (h2 : ∀ j x, j < n → Dispara t st.1 i j x → completarFijo t x st.1 = st.1) :
    (∀ i' j x, i' < i → Dispara t (barridoOperacion (relojFijo t) t i st n).1 i' j x →
      completarFijo t x (barridoOperacion (relojFijo t) t i st n).1 =
        (barridoOperacion (relojFijo t) t i st n).1) ∧
    (∀ j x, j < n + 1 → Dispara t (barridoOperacion (relojFijo t) t i st n).1 i j x →
      completarFijo t x (barridoOperacion (relojFijo t) t i st n).1 =
        (barridoOperacion (relojFijo t) t i st n).1) := by
  rcases barridoOperacion_cases (relojFijo t) t i st n with ⟨h, hno⟩ | ⟨d, op, hd, hop, hp, hold, h⟩
  · rw [h]
    refine ⟨h1, fun j x hj hdis => ?_⟩
    rcases Nat.lt_succ_iff_lt_or_eq.mp hj with hlt | rfl
    · exact h2 j x hlt hdis
    · obtain ⟨d, op, hd, -, hop, hp, hold, -⟩ := hdis
      exact absurd ⟨hp, hold⟩ (hno d op hd hop)
  · have hs : (barridoOperacion (relojFijo t) t i st n).1 = completarFijo t op.id st.1 := by
      rw [h]
      exact completarOperacion_relojFijo st.1 t st.2 op.id
    rw [hs]
    have hrel : Rel (fun _ => True) st.1 (completarFijo t op.id st.1) := by
      rw [← completarOperacion_relojFijo st.1 t st.2 op.id]
      exact rel_completarOperacion _ _ _ _ _ trivial
    refine ⟨fun i' j x hi hdis => ?_, fun j x hj hdis => ?_⟩
    · exact hecho_completar t x op.id st.1 (h1 i' j x hi (dispara_of_rel _ t _ _ hrel _ _ _ hdis))
    · have hdis0 := dispara_of_rel _ t _ _ hrel _ _ _ hdis
      rcases Nat.lt_succ_iff_lt_or_eq.mp hj with hlt | rfl
      · exact hecho_completar t x op.id st.1 (h2 j x hlt hdis0)
      · obtain ⟨d', op', hd', -, hop', -, -, hid⟩ := hdis0
        rw [hd] at hd'
        cases hd'
        rw [hop] at hop'
        cases hop'
        rw [← hid]
        exact completarFijo_idem t op.id st.1

theorem barridoDispositivo_paso (t i : Nat) (st : SimuladorSO × Nat)
    (h1 : ∀ i' j x, i' < i → Dispara t st.1 i' j x → completarFijo t x st.1 = st.1) :
    ∀ i' j x, i' < i + 1 → Dispara t (barridoDispositivo (relojFijo t) t st i).1 i' j x →
      completarFijo t x (barridoDispositivo (relojFijo t) t st i).1 =
        (barridoDispositivo (relojFijo t) t st i).1 := by
  have hsame : barridoDispositivo (relojFijo t) t st i = st →
      ¬ (∃ d, st.1.dispositivos[i]? = some d ∧ d.estado = .conectado) →
      ∀ i' j x, i' < i + 1 → Dispara t (barridoDispositivo (relojFijo t) t st i).1 i' j x →
      completarFijo t x (barridoDispositivo (relojFijo t) t st i).1 =
        (barridoDispositivo (relojFijo t) t st i).1 := by
    intro he hno i' j x hi hdis
    rw [he] at hdis ⊢
    rcases Nat.lt_succ_iff_lt_or_eq.mp hi with hlt | rfl
    · exact h1 i' j x hlt hdis
    · obtain ⟨d, op, hd, hc, -⟩ := hdis
      exact absurd ⟨d, hd, hc⟩ hno
  cases hd : st.1.dispositivos[i]? with
  | none =>
    refine hsame ?_ ?_
    · simp only [barridoDispositivo, hd]
    · rintro ⟨d, hd', -⟩
      rw [hd] at hd'
      cases hd'
  | some d =>
    by_cases hc : d.estado = .conectado
    · have hfold : barridoDispositivo (relojFijo t) t st i =
          (List.range d.operacionesPendientes.length).foldl
            (barridoOperacion (relojFijo t) t i) st := by
        simp only [barridoDispositivo, hd, hc, ne_eq, not_true_eq_false, if_false]
      rw [hfold]
      have hinv := foldl_range_inv (barridoOperacion (relojFijo t) t i)
        (fun n st' =>
          (∀ i' j x, i' < i → Dispara t st'.1 i' j x → completarFijo t x st'.1 = st'.1) ∧
          (∀ j x, j < n → Dispara t st'.1 i j x → completarFijo t x st'.1 = st'.1))
        (fun n b hb => barridoOperacion_paso t i n b hb.1 hb.2)
        d.operacionesPendientes.length st ⟨h1, fun j x hj => absurd hj (Nat.not_lt_zero j)⟩
      intro i' j x hi hdis
      rcases Nat.lt_succ_iff_lt_or_eq.mp hi with hlt | rfl
      · exact hinv.1 i' j x hlt hdis
      · refine hinv.2 j x ?_ hdis
        have hdis0 := dispara_of_rel _ t _ _
          (rel_foldl_barridoOperacion (relojFijo t) t i' _ st) _ _ _ hdis
        obtain ⟨d', op', hd', -, hop', -⟩ := hdis0
        rw [hd] at hd'
        cases hd'
        rcases List.getElem?_eq_some.mp hop' with ⟨hlt, -⟩
        exact hlt
    · refine hsame ?_ ?_
      · simp only [barridoDispositivo, hd, hc, ne_eq, not_false_eq_true, if_true]
      · rintro ⟨d', hd', hc'⟩
        rw [hd] at hd'
        cases hd'
        exact hc hc'

theorem estable_barrido (s : SimuladorSO) (t k : Nat) :
    Estable t (s.completarOperacionesPendientes (relojFijo t) k).1 := by
  have hinv := foldl_range_inv (barridoDispositivo (relojFijo t) t)
    (fun n st' =>
      ∀ i' j x, i' < n → Dispara t st'.1 i' j x → completarFijo t x st'.1 = st'.1)
    (fun n b hb => barridoDispositivo_paso t n b hb)
    s.dispositivos.length (s, k + 1) (fun i' j x hi => absurd hi (Nat.not_lt_zero i'))
  intro i j x hdis
  refine hinv i j x ?_ hdis
  have hdis0 := dispara_of_rel _ t _ _ (rel_barrido s (relojFijo t) k) _ _ _ hdis
  obtain ⟨d, op, hd, -⟩ := hdis0
  rcases List.getElem?_eq_some.mp hd with ⟨hlt, -⟩
  exact hlt

theorem barrido_de_estable (s : SimuladorSO) (t k : Nat) (h : Estable t s) :
    (s.completarOperacionesPendientes (relojFijo t) k).1 = s := by
  unfold SimuladorSO.completarOperacionesPendientes
  refine foldl_preserva (fun st => st.1 = s) _ ?_ _ (s, k + 1) rfl
  intro st i hst
  unfold barridoDispositivo
  cases hd : st.1.dispositivos[i]? with
  | none => exact hst
  | some d =>
    simp only
    by_cases hc : d.estado = .conectado
    · simp only [hc, ne_eq, not_true_eq_false, if_false]
      refine foldl_preserva (fun st' => st'.1 = s) _ ?_ _ st hst
      intro st' j hst'
      rcases barridoOperacion_cases (relojFijo t) (relojFijo t k) i st' j with
        ⟨he, -⟩ | ⟨d', op, hd', hop, hp, hold, he⟩
      · rw [he]; exact hst'
      · rw [he]
        show (st'.1.completarOperacion (relojFijo t) st'.2 op.id).2.1 = s
        rw [completarOperacion_relojFijo, hst']
        apply h i j op.id
        rw [hst'] at hd' hold
        rw [hst] at hd
        rw [hd] at hd'
        cases hd'
        exact ⟨d, op, hd, hc, hop, hp, hold, rfl⟩
    · simp only [hc, ne_eq, not_false_eq_true, if_true]
      exact hst

/-- C7: the sweep is idempotent at a fixed instant.  For every manager state
and every time `ahora`, with a clock that reads `ahora` at every reading,
running `completarOperacionesPendientes` a second time yields the same manager
(same statuses and same `completedAt` in every device list and in the queue) as
running it once. -/
theorem barrido_idempotente (s : SimuladorSO) (ahora k k' : Nat) :
    ((s.completarOperacionesPendientes (relojFijo ahora) k).1.completarOperacionesPendientes
        (relojFijo ahora) k').1 =
      (s.completarOperacionesPendientes (relojFijo ahora) k).1 :=
  barrido_de_estable _ ahora k' (estable_barrido s ahora k)

/-! ## The sweep on a well-formed manager -/

theorem nodup_key_inj {α : Type} (key : α → String) (l : List α) (h : (l.map key).Nodup)
    (n m : Nat) (a b : α) (ha : l[n]? = some a) (hb : l[m]? = some b) (hk : key a = key b) :
    n = m := by
  obtain ⟨hn, rfl⟩ := List.getElem?_eq_some.mp ha
  obtain ⟨hm, rfl⟩ := List.getElem?_eq_some.mp hb
  have hn' : n < (l.map key).length := by simpa using hn
  have hm' : m < (l.map key).length := by simpa using hm
  have : (l.map key)[n] = (l.map key)[m] := by simpa using hk
  exact (List.Nodup.getElem_inj_iff h).mp this

theorem findIdx?_of_nodup {α : Type} (key : α → String) (l : List α) (h : (l.map key).Nodup)
    (n : Nat) (a : α) (ha : l[n]? = some a) (x : String) (hx : key a = x) :
    l.findIdx? (fun b => key b == x) = some n := by
  obtain ⟨hn, hna⟩ := List.getElem?_eq_some.mp ha
  rw [List.findIdx?_eq_some_iff_getElem]
  refine ⟨hn, by simp [hna, hx], fun j hj => ?_⟩
  intro hp
  have hjn : j < l.length := Nat.lt_trans hj hn
  have hkj : key l[j] = key a := by
    have : key l[j] = x := by simpa using hp
    rw [this, hx]
  have := nodup_key_inj key l h j n l[j] a (List.getElem?_eq_getElem hjn) ha hkj
  omega

theorem idsOperaciones_eq (s : SimuladorSO) :
    (paresDispositivos s).map Prod.fst =
      s.dispositivos.flatMap (fun d => d.operacionesPendientes.map (fun op => op.id)) := by
  unfold paresDispositivos
  rw [List.map_flatMap]
  simp only [List.map_map]
  rfl

theorem nodup_operaciones_dispositivo (s : SimuladorSO)
    (h : ((paresDispositivos s).map Prod.fst).Nodup) (d : Dispositivo) (hd : d ∈ s.dispositivos) :
    (d.operacionesPendientes.map (fun op => op.id)).Nodup := by
  rw [idsOperaciones_eq, List.nodup_flatMap] at h
  exact h.1 d hd

theorem celda_unica (s : SimuladorSO) (h : ((paresDispositivos s).map Prod.fst).Nodup)
    (i i' j j' : Nat) (d d' : Dispositivo) (op op' : Operacion)
    (hd : s.dispositivos[i]? = some d) (hop : d.operacionesPendientes[j]? = some op)
    (hd' : s.dispositivos[i']? = some d') (hop' : d'.operacionesPendientes[j']? = some op')
    (hid : op.id = op'.id) : i = i' ∧ j = j' := by
  have hdm : d ∈ s.dispositivos := mem_of_getElem?_eq hd
  have hnd := nodup_operaciones_dispositivo s h d hdm
  rw [idsOperaciones_eq, List.nodup_flatMap] at h
  have hpw := List.pairwise_iff_getElem.mp h.2
  obtain ⟨hi, hdi⟩ := List.getElem?_eq_some.mp hd
  obtain ⟨hi', hdi'⟩ := List.getElem?_eq_some.mp hd'
  have hmem : op.id ∈ d.operacionesPendientes.map (fun op => op.id) :=
    List.mem_map.mpr ⟨op, mem_of_getElem?_eq hop, rfl⟩
  have hmem' : op.id ∈ d'.operacionesPendientes.map (fun op => op.id) :=
    List.mem_map.mpr ⟨op', mem_of_getElem?_eq hop', hid.symm⟩
  have hii : i = i' := by
    rcases Nat.lt_trichotomy i i' with hlt | heq | hgt
    · have hdis := hpw i i' hi hi' hlt
      rw [hdi, hdi'] at hdis
      exact absurd hmem' (hdis hmem)
    · exact heq
    · have hdis := hpw i' i hi' hi hgt
      rw [hdi, hdi'] at hdis
      exact absurd hmem (hdis hmem')
  subst hii
  rw [hd] at hd'
  cases hd'
  exact ⟨rfl, nodup_key_inj (fun op => op.id) _ hnd j j' op op' hop hop' hid⟩

theorem forall₂_map_eq {α β : Type} {R : α → α → Prop} (f : α → β)
    (hf : ∀ a b, R a b → f b = f a) {l l' : List α} (h : List.Forall₂ R l l') :
    l'.map f = l.map f := by
  induction h with
  | nil => rfl
  | cons hab _ ih => simp [hf _ _ hab, ih]

theorem rel_idsDispositivos (X : String → Prop) (s t : SimuladorSO) (h : Rel X s t) :
    t.dispositivos.map (fun d => d.id) = s.dispositivos.map (fun d => d.id) :=
  forall₂_map_eq _ (fun _ _ hab => hab.1) h.1

theorem rel_paresCola (X : String → Prop) (s t : SimuladorSO) (h : Rel X s t) :
    paresCola t = paresCola s :=
  forall₂_map_eq _ (fun a b hab => by rw [hab.1, hab.2.1]) h.2.1

theorem forall₂_flatMap_eq {α β : Type} {R : α → α → Prop} (f : α → List β)
    (hf : ∀ a b, R a b → f b = f a) {l l' : List α} (h : List.Forall₂ R l l') :
    l'.flatMap f = l.flatMap f := by
  induction h with
  | nil => rfl
  | cons hab _ ih => rw [List.flatMap_cons, List.flatMap_cons, ih, hf _ _ hab]

theorem rel_paresDispositivos (X : String → Prop) (s t : SimuladorSO) (h : Rel X s t) :
    paresDispositivos t = paresDispositivos s := by
  unfold paresDispositivos
  refine forall₂_flatMap_eq _ (fun d e hde => ?_) h.1
  rw [hde.1]
  exact forall₂_map_eq _ (fun a b hab => by rw [hab.1]) hde.2.2

theorem bienFormado_of_rel (X : String → Prop) (s t : SimuladorSO) (h : Rel X s t)
    (hs : BienFormado s) : BienFormado t :=
  ⟨by rw [rel_idsDispositivos X s t h]; exact hs.idsDispositivos,
   by rw [rel_paresDispositivos X s t h]; exact hs.idsOperaciones,
   by rw [rel_paresCola X s t h]; exact hs.idsCola,
   by rw [rel_paresDispositivos X s t h, rel_paresCola X s t h]; exact hs.espejo⟩

theorem hecha_of_rel (X : String → Prop) (s t : SimuladorSO) (h : Rel X s t) (i j : Nat)
    (x : String) (hh : Hecha s i j x) : Hecha t i j x := by
  obtain ⟨⟨d, op, hd, hop, he⟩, hq⟩ := hh
  constructor
  · obtain ⟨e, he', hde⟩ := forall₂_getElem?_left h.1 i d hd
    obtain ⟨b, hb, hab⟩ := forall₂_getElem?_left hde.2.2 j op hop
    refine ⟨e, b, he', hb, ?_⟩
    rcases hab.2.2 with h1 | ⟨h1, -⟩
    · rw [h1, he]
    · exact h1
  · intro q' hq' hid
    obtain ⟨n, hn⟩ := List.mem_iff_getElem?.mp hq'
    obtain ⟨q, hqn, hqq⟩ := forall₂_getElem?_right h.2.1 n q' hn
    have := hq q (mem_of_getElem?_eq hqn) (hqq.1 ▸ hid)
    rcases hqq.2.2 with h1 | ⟨h1, -⟩
    · rw [h1, this]
    · exact h1

theorem hecha_completarOperacion (s : SimuladorSO) (hs : BienFormado s) (r : Reloj)
    (k i j : Nat) (d : Dispositivo) (op : Operacion)
    (hd : s.dispositivos[i]? = some d) (hop : d.operacionesPendientes[j]? = some op) :
    Hecha (s.completarOperacion r k op.id).2.1 i j op.id := by
  have hpar : (op.id, d.id) ∈ paresDispositivos s :=
    List.mem_flatMap.mpr ⟨d, mem_of_getElem?_eq hd,
      List.mem_map.mpr ⟨op, mem_of_getElem?_eq hop, rfl⟩⟩
  obtain ⟨q, hqmem, hqeq⟩ := List.mem_map.mp (hs.espejo hpar)
  simp only [Prod.mk.injEq] at hqeq
  obtain ⟨n, hn⟩ := List.mem_iff_getElem?.mp hqmem
  have hndc : (s.colaOperaciones.map (fun q => q.id)).Nodup := by
    have := hs.idsCola
    unfold paresCola at this
    rwa [List.map_map] at this
  have hfind : s.colaOperaciones.findIdx? (fun q => q.id == op.id) = some n :=
    findIdx?_of_nodup (fun q => q.id) _ hndc n q hn op.id hqeq.1
  have hfindD : s.dispositivos.findIdx? (fun dev => dev.id == q.dispositivo) = some i :=
    findIdx?_of_nodup (fun d => d.id) _ hs.idsDispositivos i d hd q.dispositivo hqeq.2.symm
  have hfindO : d.operacionesPendientes.findIdx? (fun o => o.id == op.id) = some j :=
    findIdx?_of_nodup (fun o => o.id) _
      (nodup_operaciones_dispositivo s hs.idsOperaciones d (mem_of_getElem?_eq hd)) j op hop
      op.id rfl
  rw [completarOperacion_eq]
  constructor
  · refine ⟨completarEnDispositivo (r (k + 1)) op.id d, marcaOperacion (r (k + 1)) op, ?_, ?_, rfl⟩
    · show (completarEnDispositivos _ _ _ _)[i]? = _
      unfold completarEnDispositivos
      simp only [hfind, hn, hfindD, List.getElem?_modify, hd, Option.map_eq_map,
        Option.map_some', if_true]
    · unfold completarEnDispositivo
      simp only [hfindO, List.getElem?_modify, hop, Option.map_eq_map, Option.map_some',
        if_true]
  · intro q' hq' hid
    change q' ∈ completarEnCola (r k) op.id s.colaOperaciones at hq'
    unfold completarEnCola at hq'
    simp only [hfind] at hq'
    obtain ⟨m, hm⟩ := List.mem_iff_getElem?.mp hq'
    rw [List.getElem?_modify] at hm
    cases hqm : s.colaOperaciones[m]? with
    | none => rw [hqm] at hm; simp at hm
    | some qm =>
      rw [hqm] at hm
      simp only [Option.map_eq_map, Option.map_some', Option.some.injEq] at hm
      by_cases hnm : n = m
      · rw [if_pos hnm] at hm
        rw [← hm]
        rfl
      · rw [if_neg hnm] at hm
        subst hm
        exact absurd (nodup_key_inj (fun q => q.id) _ hndc n m q qm hn hqm
          (hqeq.1.trans hid.symm)) hnm

theorem invBarrido_congr (ahora : Nat) (s0 s : SimuladorSO) (V V' : Nat → Nat → Prop)
    (hV : ∀ i' j' x, Dispara ahora s0 i' j' x → (V i' j' ↔ V' i' j'))
    (h : InvBarrido ahora s0 V s) : InvBarrido ahora s0 V' s := by
  refine ⟨rel_mono _ _ ?_ _ _ h.1, fun i' j' x hv hd => h.2 i' j' x ((hV i' j' x hd).mpr hv) hd⟩
  rintro x ⟨i', j', hv, hd⟩
  exact ⟨i', j', (hV i' j' x hd).mp hv, hd⟩

theorem invBarrido_barridoOperacion (r : Reloj) (ahora : Nat) (s0 : SimuladorSO)
    (hs0 : BienFormado s0) (i n : Nat) (st : SimuladorSO × Nat) (d0 : Dispositivo)
    (hd0 : s0.dispositivos[i]? = some d0) (hc0 : d0.estado = .conectado)
    (h : InvBarrido ahora s0 (Visto i n) st.1) :
    InvBarrido ahora s0 (Visto i (n + 1)) (barridoOperacion r ahora i st n).1 := by
  have hsub : ∀ i' j', Visto i n i' j' → Visto i (n + 1) i' j' := by
    rintro i' j' (h1 | ⟨h1, h2⟩)
    · exact Or.inl h1
    · exact Or.inr ⟨h1, Nat.lt_succ_of_lt h2⟩
  have hcases : ∀ i' j', Visto i (n + 1) i' j' → Visto i n i' j' ∨ (i' = i ∧ j' = n) := by
    rintro i' j' (h1 | ⟨h1, h2⟩)
    · exact Or.inl (Or.inl h1)
    · rcases Nat.lt_succ_iff_lt_or_eq.mp h2 with h3 | h3
      · exact Or.inl (Or.inr ⟨h1, h3⟩)
      · exact Or.inr ⟨h1, h3⟩
  have hmono : ∀ x, (∃ i' j', Visto i n i' j' ∧ Dispara ahora s0 i' j' x) →
      (∃ i' j', Visto i (n + 1) i' j' ∧ Dispara ahora s0 i' j' x) := by
    rintro x ⟨i', j', hv, hd⟩
    exact ⟨i', j', hsub i' j' hv, hd⟩
  rcases barridoOperacion_cases r ahora i st n with
    ⟨he, hno⟩ | ⟨d, op, hd, hop, hp, hold, he⟩
  · rw [he]
    refine ⟨rel_mono _ _ hmono _ _ h.1, fun i' j' x hv hdis => ?_⟩
    rcases hcases i' j' hv with hv' | ⟨rfl, rfl⟩
    · exact h.2 i' j' x hv' hdis
    · obtain ⟨d0', op0, hd0', -, hop0, hp0, hold0, hid0⟩ := hdis
      rw [hd0] at hd0'
      cases hd0'
      obtain ⟨d, hd, hdd⟩ := forall₂_getElem?_left h.1.1 i' d0 hd0
      obtain ⟨op, hop, hoo⟩ := forall₂_getElem?_left hdd.2.2 j' op0 hop0
      rcases hoo.2.2 with h1 | ⟨h1, i'', j'', hv'', hd''⟩
      · exfalso
        refine hno d op hd hop ⟨h1.trans hp0, ?_⟩
        rw [hoo.2.1, h.1.2.2]
        exact hold0
      · have hh := h.2 i'' j'' op0.id hv'' hd''
        exact ⟨⟨d, op, hd, hop, h1⟩, hid0 ▸ hh.2⟩
  · rw [he]
    obtain ⟨d0', hd0', hdd⟩ := forall₂_getElem?_right h.1.1 i d hd
    rw [hd0] at hd0'
    cases hd0'
    obtain ⟨op0, hop0, hoo⟩ := forall₂_getElem?_right hdd.2.2 n op hop
    have hp0 : op0.estado = .pendiente := by
      rcases hoo.2.2 with h1 | ⟨h1, -⟩
      · rw [← h1]; exact hp
      · rw [hp] at h1; cases h1
    have hdis0 : Dispara ahora s0 i n op.id := by
      refine ⟨d0, op0, hd0, hc0, hop0, hp0, ?_, hoo.1.symm⟩
      rw [← hoo.2.1, ← h.1.2.2]
      exact hold
    have hx : ∃ i' j', Visto i (n + 1) i' j' ∧ Dispara ahora s0 i' j' op.id :=
      ⟨i, n, Or.inr ⟨rfl, Nat.lt_succ_self n⟩, hdis0⟩
    have hrel := rel_completarOperacion
      (fun x => ∃ i' j', Visto i (n + 1) i' j' ∧ Dispara ahora s0 i' j' x) st.1 r st.2 op.id hx
    refine ⟨rel_trans _ _ _ _ (rel_mono _ _ hmono _ _ h.1) hrel, fun i' j' x hv hdis => ?_⟩
    rcases hcases i' j' hv with hv' | ⟨rfl, rfl⟩
    · exact hecha_of_rel _ _ _ hrel i' j' x (h.2 i' j' x hv' hdis)
    · obtain ⟨d0', op0', hd0', -, hop0', -, -, hid0⟩ := hdis
      rw [hd0] at hd0'
      cases hd0'
      rw [hop0] at hop0'
      cases hop0'
      rw [← hid0, ← hoo.1]
      exact hecha_completarOperacion st.1 (bienFormado_of_rel _ s0 st.1 h.1 hs0) r st.2 i' j' d op
        hd hop

theorem invBarrido_barridoDispositivo (r : Reloj) (ahora : Nat) (s0 : SimuladorSO)
    (hs0 : BienFormado s0) (i : Nat) (st : SimuladorSO × Nat)
    (h : InvBarrido ahora s0 (Visto i 0) st.1) :
    InvBarrido ahora s0 (Visto (i + 1) 0) (barridoDispositivo r ahora st i).1 := by
  have hsame : barridoDispositivo r ahora st i = st →
      ¬ (∃ d, st.1.dispositivos[i]? = some d ∧ d.estado = .conectado) →
      InvBarrido ahora s0 (Visto (i + 1) 0) (barridoDispositivo r ahora st i).1 := by
    intro he hno
    rw [he]
    refine invBarrido_congr ahora s0 st.1 _ _ (fun i' j' x hdis => ⟨?_, ?_⟩) h
    · rintro (h1 | ⟨-, h2⟩)
      · exact Or.inl (Nat.lt_succ_of_lt h1)
      · exact absurd h2 (Nat.not_lt_zero _)
    · rintro (h1 | ⟨-, h2⟩)
      · rcases Nat.lt_succ_iff_lt_or_eq.mp h1 with h3 | rfl
        · exact Or.inl h3
        · exfalso
          obtain ⟨d0, op0, hd0, hc0, -⟩ := hdis
          obtain ⟨d, hd, hdd⟩ := forall₂_getElem?_left h.1.1 i' d0 hd0
          exact hno ⟨d, hd, hdd.2.1.trans hc0⟩
      · exact absurd h2 (Nat.not_lt_zero _)
  cases hd : st.1.dispositivos[i]? with
  | none =>
    refine hsame ?_ ?_
    · simp only [barridoDispositivo, hd]
    · rintro ⟨d, hd', -⟩
      rw [hd] at hd'
      cases hd'
  | some d =>
    by_cases hc : d.estado = .conectado
    · have hfold : barridoDispositivo r ahora st i =
          (List.range d.operacionesPendientes.length).foldl (barridoOperacion r ahora i) st := by
        simp only [barridoDispositivo, hd, hc, ne_eq, not_true_eq_false, if_false]
      rw [hfold]
      obtain ⟨d0, hd0, hdd⟩ := forall₂_getElem?_right h.1.1 i d hd
      have hc0 : d0.estado = .conectado := hdd.2.1 ▸ hc
      have hinv := foldl_range_inv (barridoOperacion r ahora i)
        (fun n st' => InvBarrido ahora s0 (Visto i n) st'.1)
        (fun n b hb => invBarrido_barridoOperacion r ahora s0 hs0 i n b d0 hd0 hc0 hb)
        d.operacionesPendientes.length st h
      refine invBarrido_congr ahora s0 _ _ _ (fun i' j' x hdis => ⟨?_, ?_⟩) hinv
      · rintro (h1 | ⟨h1, -⟩)
        · exact Or.inl (Nat.lt_succ_of_lt h1)
        · exact Or.inl (h1 ▸ Nat.lt_succ_self i)
      · rintro (h1 | ⟨-, h2⟩)
        · rcases Nat.lt_succ_iff_lt_or_eq.mp h1 with h3 | rfl
          · exact Or.inl h3
          · refine Or.inr ⟨rfl, ?_⟩
            obtain ⟨d0', op0, hd0', -, hop0, -⟩ := hdis
            rw [hd0] at hd0'
            cases hd0'
            rcases List.getElem?_eq_some.mp hop0 with ⟨hlt, -⟩
            rw [← hdd.2.2.length_eq]
            exact hlt
        · exact absurd h2 (Nat.not_lt_zero _)
    · refine hsame ?_ ?_
      · simp only [barridoDispositivo, hd, hc, ne_eq, not_false_eq_true, if_true]
      · rintro ⟨d', hd', hc'⟩
        rw [hd] at hd'
        cases hd'
        exact hc hc'

theorem invBarrido_barrido (s : SimuladorSO) (hs : BienFormado s) (r : Reloj) (k : Nat) :
    InvBarrido (r k) s (fun _ _ => True) (s.completarOperacionesPendientes r k).1 := by
  have hinv := foldl_range_inv (barridoDispositivo r (r k))
    (fun n st' => InvBarrido (r k) s (Visto n 0) st'.1)
    (fun n b hb => invBarrido_barridoDispositivo r (r k) s hs n b hb)
    s.dispositivos.length (s, k + 1)
    ⟨rel_refl _ s, fun i' j' x hv => by
      rcases hv with h1 | ⟨-, h2⟩
      · exact absurd h1 (Nat.not_lt_zero _)
      · exact absurd h2 (Nat.not_lt_zero _)⟩
  refine invBarrido_congr (r k) s _ _ _ (fun i' j' x hdis => ⟨fun _ => trivial, fun _ => ?_⟩) hinv
  obtain ⟨d, op, hd, -⟩ := hdis
  rcases List.getElem?_eq_some.mp hd with ⟨hlt, -⟩
  exact Or.inl hlt

theorem devId1 : "dev_usb_" ++ toString (1 : Nat) = "dev_usb_1" := by decide

theorem correr_conectar_agregar (r : Reloj) :
    (correr r [.conectar "usb", .agregar "dev_usb_1" "salida" none]) =
      ({ SimuladorSO.nuevo with
          dispositivos :=
            [{ Dispositivo.nuevo .usb "dev_usb_1" (r 0) with
                operacionesPendientes :=
                  [{ id := "op_usb_" ++ toString (r 1), tipo := "salida", estado := .pendiente,
                     dispositivo := "dev_usb_1", datos := none, timestamp := r 2,
                     completedAt := none }] }]
          colaOperaciones :=
            [{ id := "op_usb_" ++ toString (r 1), dispositivo := "dev_usb_1", tipo := "salida",
               estado := .pendiente, timestamp := r 3, completedAt := none, failedAt := none }]
          manejadores := SimuladorSO.nuevo.manejadores.modificarActivos .usb (fun n => n + 1)
          nextId := 2
          autoCompleteInterval := true }, 4) := by
  simp [correr, ejecutar, SimuladorSO.conectarDispositivo, Tipo.deNombre, SimuladorSO.nuevo,
    SimuladorSO.iniciarAutoCompletado, SimuladorSO.agregarOperacion, Dispositivo.nuevo,
    Dispositivo.escribirDatos, Dispositivo.operacionSalida, Tipo.nombre, List.findIdx?_cons,
    Manejadores.modificarActivos, devId1]

theorem correr_conectar_agregar_tic (r : Reloj) (h : r 2 + 3000 < r 4) :
    ((correr r [.conectar "usb", .agregar "dev_usb_1" "salida" none, .tic]).1.dispositivos.map
        (fun d => (d.estado, d.operacionesPendientes.map (fun op => op.estado),
          (d.operacionesPendientes.filter (fun op => decide (op.estado = .pendiente))).length))
      = [(.conectado, [.completado], 0)]) ∧
    ((correr r [.conectar "usb", .agregar "dev_usb_1" "salida" none, .tic]).1.colaOperaciones.map
        (fun q => q.estado) = [.completado]) := by
  have hc : (3000 : Int) < ((r 4 : Nat) : Int) - ((r 2 : Nat) : Int) := by omega
  have hstep : correr r [.conectar "usb", .agregar "dev_usb_1" "salida" none, .tic] =
      ejecutar r (correr r [.conectar "usb", .agregar "dev_usb_1" "salida" none]) .tic := rfl
  rw [hstep, correr_conectar_agregar]
  simp [ejecutar, SimuladorSO.completarOperacionesPendientes, barridoDispositivo,
    barridoOperacion, SimuladorSO.nuevo, Dispositivo.nuevo, List.range_succ,
    SimuladorSO.completarOperacion, Dispositivo.completarOperacion, List.findIdx?_cons, hc]

/-- C6: in a manager state that satisfies the data model (`BienFormado`: device
ids and operation ids pairwise distinct, every device record mirrored in the
queue) one tick of the sweep at time `r k` sets to `completado`, in the
device's list and in the queue, exactly the operations whose device record is
`pendiente`, on a device that is `conectado`, and older than 3000 ms; every
other record keeps its status, and no record is added or removed.  In
particular, from a fresh manager, connect(USB), one submit and a tick more
than 3000 ms after the submission leave the operation `completado` in both
copies and the device with 0 pending operations. -/
theorem barrido_completa_exactamente (s : SimuladorSO) (r : Reloj) (k : Nat)
    (hs : BienFormado s) (hT : s.autoCompleteTime = 3000) :
    (∀ (i : Nat) (d : Dispositivo) (j : Nat) (op : Operacion),
      s.dispositivos[i]? = some d → d.operacionesPendientes[j]? = some op →
      ∃ (d' : Dispositivo) (op' : Operacion), (s.completarOperacionesPendientes r k).1.dispositivos[i]? = some d' ∧
        d'.operacionesPendientes[j]? = some op' ∧ op'.id = op.id ∧
        ((d.estado = .conectado ∧ op.estado = .pendiente ∧
            (r k : Int) - (op.timestamp : Int) > 3000) → op'.estado = .completado) ∧
        (¬ (d.estado = .conectado ∧ op.estado = .pendiente ∧
            (r k : Int) - (op.timestamp : Int) > 3000) → op'.estado = op.estado)) ∧
    (∀ (n : Nat) (q : OperacionCola), s.colaOperaciones[n]? = some q →
      ∃ q' : OperacionCola, (s.completarOperacionesPendientes r k).1.colaOperaciones[n]? = some q' ∧
        q'.id = q.id ∧
        ((∃ d ∈ s.dispositivos, ∃ op ∈ d.operacionesPendientes, op.id = q.id ∧
            d.estado = .conectado ∧ op.estado = .pendiente ∧
            (r k : Int) - (op.timestamp : Int) > 3000) → q'.estado = .completado) ∧
        (¬ (∃ d ∈ s.dispositivos, ∃ op ∈ d.operacionesPendientes, op.id = q.id ∧
            d.estado = .conectado ∧ op.estado = .pendiente ∧
            (r k : Int) - (op.timestamp : Int) > 3000) → q'.estado = q.estado)) ∧
    (s.completarOperacionesPendientes r k).1.dispositivos.length = s.dispositivos.length ∧
    (s.completarOperacionesPendientes r k).1.colaOperaciones.length = s.colaOperaciones.length ∧
    (∀ r' : Reloj, r' 2 + 3000 < r' 4 →
      ((correr r' [.conectar "usb", .agregar "dev_usb_1" "salida" none, .tic]).1.dispositivos.map
          (fun d => (d.estado, d.operacionesPendientes.map (fun op => op.estado),
            (d.operacionesPendientes.filter (fun op => decide (op.estado = .pendiente))).length))
        = [(.conectado, [.completado], 0)]) ∧
      ((correr r' [.conectar "usb", .agregar "dev_usb_1" "salida" none, .tic]).1.colaOperaciones.map
          (fun q => q.estado) = [.completado])) := by
  obtain ⟨hrel, hhecha⟩ := invBarrido_barrido s hs r k
  have hT' : ((s.autoCompleteTime : Nat) : Int) = 3000 := by rw [hT]; rfl
  refine ⟨?_, ?_, hrel.1.length_eq.symm, hrel.2.1.length_eq.symm, correr_conectar_agregar_tic⟩
  · intro i d j op hd hop
    obtain ⟨d', hd', hdd⟩ := forall₂_getElem?_left hrel.1 i d hd
    obtain ⟨op', hop', hoo⟩ := forall₂_getElem?_left hdd.2.2 j op hop
    refine ⟨d', op', hd', hop', hoo.1, ?_, ?_⟩
    · rintro ⟨hc, hp, hold⟩
      have hdis : Dispara (r k) s i j op.id := ⟨d, op, hd, hc, hop, hp, hT' ▸ hold, rfl⟩
      obtain ⟨⟨d'', op'', hd'', hop'', he⟩, -⟩ := hhecha i j op.id trivial hdis
      rw [hd'] at hd''
      cases hd''
      rw [hop'] at hop''
      cases hop''
      exact he
    · intro hno
      rcases hoo.2.2 with h1 | ⟨-, i', j', -, hdis⟩
      · exact h1
      · exfalso
        obtain ⟨d1, op1, hd1, hc1, hop1, hp1, hold1, hid1⟩ := hdis
        obtain ⟨rfl, rfl⟩ := celda_unica s hs.idsOperaciones i' i j' j d1 d op1 op hd1 hop1 hd hop hid1
        rw [hd] at hd1
        cases hd1
        rw [hop] at hop1
        cases hop1
        exact hno ⟨hc1, hp1, hT' ▸ hold1⟩
  · intro n q hq
    obtain ⟨q', hq', hqq⟩ := forall₂_getElem?_left hrel.2.1 n q hq
    refine ⟨q', hq', hqq.1, ?_, ?_⟩
    · rintro ⟨d, hdm, op, hopm, hid, hc, hp, hold⟩
      obtain ⟨i, hd⟩ := List.mem_iff_getElem?.mp hdm
      obtain ⟨j, hop⟩ := List.mem_iff_getElem?.mp hopm
      have hdis : Dispara (r k) s i j q.id := ⟨d, op, hd, hc, hop, hp, hT' ▸ hold, hid⟩
      exact (hhecha i j q.id trivial hdis).2 q' (mem_of_getElem?_eq hq') hqq.1
    · intro hno
      rcases hqq.2.2 with h1 | ⟨-, i', j', -, hdis⟩
      · exact h1
      · exfalso
        obtain ⟨d1, op1, hd1, hc1, hop1, hp1, hold1, hid1⟩ := hdis
        exact hno ⟨d1, mem_of_getElem?_eq hd1, op1, mem_of_getElem?_eq hop1, hid1, hc1, hp1,
          hT' ▸ hold1⟩

/-- Witness of `barrido_completa_exactamente`: the state after connect(USB)
and one submit, with a clock advancing 4000 ms per reading. -/
theorem barrido_completa_exactamente_witness :
    BienFormado (correr (relojPaso 4000) [.conectar "usb",
      .agregar "dev_usb_1" "salida" none]).1 ∧
    ((correr (relojPaso 4000) [.conectar "usb",
      .agregar "dev_usb_1" "salida" none]).1.completarOperacionesPendientes
        (relojPaso 4000) 4).1.colaOperaciones.length = 1 :=
  ⟨⟨by decide, by decide, by decide, by decide⟩,
   (barrido_completa_exactamente
      (correr (relojPaso 4000) [.conectar "usb", .agregar "dev_usb_1" "salida" none]).1
      (relojPaso 4000) 4 ⟨by decide, by decide, by decide, by decide⟩ (by decide)).2.2.2.1⟩

/-! ## conectarDispositivo -/

theorem deNombre_nombre (t : Tipo) : Tipo.deNombre t.nombre = some t := by
  cases t <;> decide

theorem deNombre_eq_some (tipo : String) (t : Tipo) (h : Tipo.deNombre tipo = some t) :
    tipo = t.nombre := by
  unfold Tipo.deNombre at h
  split at h
  · cases h; assumption
  · split at h
    · cases h; assumption
    · split at h
      · cases h; assumption
      · cases h

/-- C13: for each of the three classes and every manager state,
`conectarDispositivo` returns a device of that class with `estado`
`conectado`, `enError` false and an empty operation list, appends it as the
last element of the device list leaving the earlier devices unchanged,
increments the `activos` count of that class by exactly 1 leaving the other
entries of the registry unchanged, and leaves the `operaciones` of every class
as they were: the two entries fixed by the constructor. -/
theorem conectarDispositivo_clase (s : SimuladorSO) (r : Reloj) (k : Nat) (t : Tipo) :
    ∃ d : Dispositivo,
      s.conectarDispositivo r k t.nombre =
        (some d,
         { s with
            dispositivos := s.dispositivos ++ [d]
            manejadores := s.manejadores.modificarActivos t (fun n => n + 1)
            nextId := s.nextId + 1
            autoCompleteInterval := true },
         k + 1) ∧
      d.tipo = t ∧ d.estado = .conectado ∧ d.enError = false ∧ d.operacionesPendientes = [] ∧
      d.id = "dev_" ++ t.nombre ++ "_" ++ toString s.nextId ∧
      ((s.manejadores.modificarActivos t (fun n => n + 1)).get t).activos =
        (s.manejadores.get t).activos + 1 ∧
      (∀ u : Tipo, u ≠ t →
        (s.manejadores.modificarActivos t (fun n => n + 1)).get u = s.manejadores.get u) ∧
      (∀ u : Tipo,
        ((s.manejadores.modificarActivos t (fun n => n + 1)).get u).operaciones =
          (s.manejadores.get u).operaciones) ∧
      (SimuladorSO.nuevo.manejadores.get t).operaciones.length = 2 := by
  refine ⟨Dispositivo.nuevo t ("dev_" ++ t.nombre ++ "_" ++ toString s.nextId) (r k),
    ?_, rfl, rfl, rfl, rfl, rfl, ?_, ?_, ?_, ?_⟩
  · unfold SimuladorSO.conectarDispositivo
    simp only [deNombre_nombre]
    cases h : s.autoCompleteInterval <;>
      simp [SimuladorSO.iniciarAutoCompletado, h]
  · cases t <;> rfl
  · intro u hu
    cases t <;> cases u <;> first | rfl | exact absurd rfl hu
  · intro u
    cases t <;> cases u <;> rfl
  · cases t <;> rfl

/-- C14 (as amended): for a class name other than the three known ones,
`conectarDispositivo` returns no device and leaves the device list, the queue,
the registry and the timer unchanged; only `nextId` is advanced by one. -/
theorem conectarDispositivo_desconocido (s : SimuladorSO) (r : Reloj) (k : Nat) (tipo : String)
    (h1 : tipo ≠ "usb") (h2 : tipo ≠ "impresora") (h3 : tipo ≠ "auriculares") :
    s.conectarDispositivo r k tipo = (none, { s with nextId := s.nextId + 1 }, k) := by
  unfold SimuladorSO.conectarDispositivo
  simp [Tipo.deNombre, h1, h2, h3]

/-- Witness of `conectarDispositivo_desconocido`: the class name `"teclado"` on
a fresh manager. -/
theorem conectarDispositivo_desconocido_witness :
    (SimuladorSO.nuevo.conectarDispositivo (relojPaso 1) 0 "teclado").2.1.nextId = 2 := by
  rw [conectarDispositivo_desconocido SimuladorSO.nuevo (relojPaso 1) 0 "teclado"
    (by decide) (by decide) (by decide)]
  rfl

/-- C14 (counterexample): after a rejected connect the next USB device gets
the id `dev_usb_2`; without the rejected connect it gets `dev_usb_1`. -/
theorem conectar_tras_rechazo :
    ((correr (relojPaso 1) [.conectar "teclado", .conectar "usb"]).1.dispositivos.map
        (fun d => d.id) = ["dev_usb_2"]) ∧
    ((correr (relojPaso 1) [.conectar "usb"]).1.dispositivos.map
        (fun d => d.id) = ["dev_usb_1"]) := by
  decide

/-! ## Rejected commands and the frame of expulsarDispositivo -/

theorem findIdx?_none_of_forall {α : Type} (key : α → String) (l : List α) (x : String)
    (h : ∀ a ∈ l, key a ≠ x) : l.findIdx? (fun a => key a == x) = none := by
  rw [List.findIdx?_eq_none_iff]
  intro a ha
  simpa using h a ha

/-- C15: every rejected command leaves the manager unchanged.  With a device id
that no device carries, `expulsarDispositivo` and `recuperarDispositivo` return
`false` and `agregarOperacion` returns no id; `agregarOperacion` on a device
found by its id whose `estado` is not `conectado` returns no id; with an
operation id that no queue record carries, `completarOperacion` and
`fallarOperacion` return `false`.  In each case the returned manager is the
manager before the call and no clock reading is made. -/
theorem comando_rechazado (s : SimuladorSO) (r : Reloj) (k : Nat)
    (id opId tipoOperacion : String) (datos : Option String) :
    ((∀ d ∈ s.dispositivos, d.id ≠ id) →
      s.expulsarDispositivo id = (false, s) ∧
      s.recuperarDispositivo r k id = (false, s, k) ∧
      s.agregarOperacion r k id tipoOperacion datos = (none, s, k)) ∧
    (∀ (i : Nat) (d : Dispositivo),
      s.dispositivos.findIdx? (fun dev => dev.id == id) = some i →
      s.dispositivos[i]? = some d → d.estado ≠ .conectado →
      s.agregarOperacion r k id tipoOperacion datos = (none, s, k)) ∧
    ((∀ q ∈ s.colaOperaciones, q.id ≠ opId) →
      s.completarOperacion r k opId = (false, s, k) ∧
      s.fallarOperacion r k opId = (false, s, k)) := by
  refine ⟨fun h => ?_, fun i d hi hd hc => ?_, fun h => ?_⟩
  · have hf := findIdx?_none_of_forall (fun d : Dispositivo => d.id) s.dispositivos id h
    simp only [SimuladorSO.expulsarDispositivo, SimuladorSO.recuperarDispositivo,
      SimuladorSO.agregarOperacion, hf, and_self]
  · simp only [SimuladorSO.agregarOperacion, hi, hd, ne_eq, hc, not_false_eq_true, if_true]
  · have hf := findIdx?_none_of_forall (fun q : OperacionCola => q.id) s.colaOperaciones opId h
    simp only [SimuladorSO.completarOperacion, SimuladorSO.fallarOperacion, hf, and_self]

/-- Witness of `comando_rechazado`: on the manager with one ejected USB device,
an unknown device id, the id of the ejected device and an unknown operation id. -/
theorem comando_rechazado_witness :
    ((correr (relojPaso 1) [.conectar "usb", .expulsar "dev_usb_1"]).1.expulsarDispositivo
        "dev_usb_9").1 = false ∧
    ((correr (relojPaso 1) [.conectar "usb", .expulsar "dev_usb_1"]).1.agregarOperacion
        (relojPaso 1) 1 "dev_usb_1" "salida" none).1 = none ∧
    ((correr (relojPaso 1) [.conectar "usb", .expulsar "dev_usb_1"]).1.completarOperacion
        (relojPaso 1) 1 "op_usb_7").1 = false := by
  have h := comando_rechazado
    (correr (relojPaso 1) [.conectar "usb", .expulsar "dev_usb_1"]).1 (relojPaso 1) 1
  refine ⟨?_, ?_, ?_⟩
  · rw [((h "dev_usb_9" "op_usb_7" "salida" none).1 (by decide)).1]
  · rw [(h "dev_usb_1" "op_usb_7" "salida" none).2.1 0 _ (by decide) rfl (by decide)]
  · rw [((h "dev_usb_9" "op_usb_7" "salida" none).2.2 (by decide)).1]

theorem expulsarDispositivo_dispositivos (s : SimuladorSO) (id : String) (i : Nat)
    (d : Dispositivo)
    (hi : s.dispositivos.findIdx? (fun dev => dev.id == id) = some i)
    (hd : s.dispositivos[i]? = some d) :
    (s.expulsarDispositivo id).2.dispositivos =
      s.dispositivos.set i
        { d.expulsar with operacionesPendientes := (d.expulsar.operacionesPendientes.map
            (fun op => if op.estado = .pendiente then { op with estado := .cancelado } else op)) } := by
  simp only [SimuladorSO.expulsarDispositivo, hi, hd]
  split <;> rfl

/-- C18: `expulsarDispositivo` has no cross-device effect.  For every manager
state and every id, after the call the device list carries the same ids in the
same order (no device removed or reordered), and every device whose id is not
the ejected one is unchanged: same `estado`, `enError` and operation list. -/
theorem expulsarDispositivo_marco (s : SimuladorSO) (id : String) :
    (s.expulsarDispositivo id).2.dispositivos.map (fun d => d.id) =
      s.dispositivos.map (fun d => d.id) ∧
    (s.expulsarDispositivo id).2.dispositivos.length = s.dispositivos.length ∧
    (∀ (j : Nat) (e : Dispositivo), s.dispositivos[j]? = some e → e.id ≠ id →
      (s.expulsarDispositivo id).2.dispositivos[j]? = some e) := by
  cases hi : s.dispositivos.findIdx? (fun dev => dev.id == id) with
  | none =>
    simp only [SimuladorSO.expulsarDispositivo, hi]
    exact ⟨trivial, trivial, fun j e he _ => he⟩
  | some i =>
    obtain ⟨d, hd, hp⟩ := getElem?_of_findIdx? hi
    rw [expulsarDispositivo_dispositivos s id i d hi hd]
    have hid : d.id = id := by simpa using hp
    refine ⟨?_, by simp, fun j e he hne => ?_⟩
    · apply List.ext_getElem?
      intro n
      simp only [List.getElem?_map, List.getElem?_set]
      by_cases hn : i = n
      · subst hn
        simp [hd, findIdx?_lt hi, Dispositivo.expulsar]
      · simp [hn]
    · have hij : i ≠ j := by
        rintro rfl
        rw [hd] at he
        cases he
        exact hne hid
      rw [List.getElem?_set_ne hij]
      exact he

/-! ## Counts, operation ids, ejected devices and payloads at concrete inputs -/

/-- C11 (the code at the failing input): `expulsarDispositivo` decrements
`activos` whenever the id is found, whatever the device's `estado`; after
connect(USB) and two ejects of `dev_usb_1` the state is reachable, both ejects
returned `true`, and the count of `usb` is -1. -/
theorem expulsar_dos_veces_activos_negativo :
    Alcanzable (correr (relojPaso 1) [.conectar "usb", .expulsar "dev_usb_1",
        .expulsar "dev_usb_1"]).1 ∧
    ((correr (relojPaso 1) [.conectar "usb", .expulsar "dev_usb_1"]).1.expulsarDispositivo
        "dev_usb_1").1 = true ∧
    (correr (relojPaso 1) [.conectar "usb", .expulsar "dev_usb_1"]).1.manejadores.usb.activos
      = 0 ∧
    (correr (relojPaso 1) [.conectar "usb", .expulsar "dev_usb_1",
        .expulsar "dev_usb_1"]).1.manejadores.usb.activos = -1 := by
  exact ⟨⟨relojPaso 1, _, rfl⟩, by decide, by decide, by decide⟩

/-- C16 (the code at the failing input): with a clock that stands still at 5
(a non-decreasing clock), two operations submitted to the same USB device get
the same id `op_usb_5`, in the device's list and in the queue; the state is
reachable. -/
theorem ids_de_operacion_repetidos :
    (∀ a b : Nat, a ≤ b → relojFijo 5 a ≤ relojFijo 5 b) ∧
    Alcanzable (correr (relojFijo 5) [.conectar "usb", .agregar "dev_usb_1" "entrada" none,
        .agregar "dev_usb_1" "salida" none]).1 ∧
    ((correr (relojFijo 5) [.conectar "usb", .agregar "dev_usb_1" "entrada" none,
        .agregar "dev_usb_1" "salida" none]).1.colaOperaciones.map (fun q => q.id)
      = ["op_usb_5", "op_usb_5"]) ∧
    ((correr (relojFijo 5) [.conectar "usb", .agregar "dev_usb_1" "entrada" none,
        .agregar "dev_usb_1" "salida" none]).1.dispositivos.map
        (fun d => d.operacionesPendientes.map (fun op => op.id))
      = [["op_usb_5", "op_usb_5"]]) := by
  exact ⟨fun _ _ _ => Nat.le_refl 5, ⟨relojFijo 5, _, rfl⟩, by decide, by decide⟩

/-- C19 (the code at the failing input): after connect(USB), one submit and
eject, the device is `desconectado` with `enError` false; `fallarOperacion` on
its operation then sets its `estado` to `error` and `enError` to true, and a
following `recuperarDispositivo` sets its `estado` back to `conectado`. -/
theorem fallar_tras_expulsar :
    ((correr (relojPaso 1) [.conectar "usb", .agregar "dev_usb_1" "salida" none,
        .expulsar "dev_usb_1"]).1.dispositivos.map (fun d => (d.id, d.estado, d.enError))
      = [("dev_usb_1", .desconectado, false)]) ∧
    ((correr (relojPaso 1) [.conectar "usb", .agregar "dev_usb_1" "salida" none,
        .expulsar "dev_usb_1", .fallar "op_usb_1"]).1.dispositivos.map
        (fun d => (d.id, d.estado, d.enError))
      = [("dev_usb_1", .error, true)]) ∧
    ((correr (relojPaso 1) [.conectar "usb", .agregar "dev_usb_1" "salida" none,
        .expulsar "dev_usb_1", .fallar "op_usb_1", .recuperar "dev_usb_1"]).1.dispositivos.map
        (fun d => (d.id, d.estado, d.enError))
      = [("dev_usb_1", .conectado, false)]) := by
  decide

/-- C20 (the code at the failing input): `agregarOperacion` never uses its
`datos` argument, so the result is the same for every payload; after
connect(USB) and a submit of kind `salida` with payload `"hola"`, the record in
the device's list has no `datos`. -/
theorem agregarOperacion_descarta_datos :
    (∀ (s : SimuladorSO) (r : Reloj) (k : Nat) (idDispositivo tipoOperacion : String)
        (datos : Option String),
      s.agregarOperacion r k idDispositivo tipoOperacion datos =
        s.agregarOperacion r k idDispositivo tipoOperacion none) ∧
    ((correr (relojPaso 1) [.conectar "usb",
        .agregar "dev_usb_1" "salida" (some "hola")]).1.dispositivos.map
        (fun d => d.operacionesPendientes.map (fun op => (op.tipo, op.datos)))
      = [[("salida", none)]]) := by
  exact ⟨fun _ _ _ _ _ _ => rfl, by decide⟩

/-! ## Device ids -/

theorem digitChar_valor (d : Nat) (h : d < 10) : (Nat.digitChar d).toNat - 48 = d := by
  interval_cases d <;> rfl

theorem valorDigitos_toDigitsCore (fuel n : Nat) (ds : List Char) (h : n < fuel) :
    valorDigitos (Nat.toDigitsCore 10 fuel n ds) 0 = valorDigitos ds n := by
  induction fuel generalizing n ds with
  | zero => omega
  | succ fuel ih =>
    unfold Nat.toDigitsCore
    simp only
    by_cases h0 : n / 10 = 0
    · rw [if_pos h0]
      have hn : n % 10 = n := Nat.mod_eq_of_lt (by omega)
      simp only [valorDigitos, List.foldl_cons, Nat.zero_mul, Nat.zero_add]
      rw [digitChar_valor _ (Nat.mod_lt _ (by decide)), hn]
    · rw [if_neg h0]
      rw [ih (n / 10) _ (by omega)]
      simp only [valorDigitos, List.foldl_cons]
      rw [digitChar_valor _ (Nat.mod_lt _ (by decide))]
      congr 1
      omega

theorem repr_inj (n m : Nat) (h : toString n = toString m) : n = m := by
  have h1 : (Nat.toDigits 10 n) = (Nat.toDigits 10 m) := by
    have := congrArg String.data h
    simpa [toString, Nat.repr, List.asString] using this
  have h2 := congrArg (fun cs => valorDigitos cs 0) h1
  simp only [Nat.toDigits] at h2
  rw [valorDigitos_toDigitsCore _ _ _ (Nat.lt_succ_self n),
    valorDigitos_toDigitsCore _ _ _ (Nat.lt_succ_self m)] at h2
  simpa [valorDigitos] using h2

theorem idDispositivo_inj (t u : Tipo) (n m : Nat)
    (h : idDispositivo t n = idDispositivo u m) : t = u ∧ n = m := by
  have h1 := congrArg String.data h
  cases t <;> cases u <;>
    simp [idDispositivo, Tipo.nombre, String.data_append] at h1 <;>
    exact ⟨rfl, repr_inj n m (String.ext h1)⟩

/-! ## How each method changes the device list and the other fields -/

theorem forall₂_set {α : Type} {R : α → α → Prop} (hr : ∀ a, R a a) (l : List α) (i : Nat)
    (a b : α) (ha : l[i]? = some a) (hab : R a b) : List.Forall₂ R l (l.set i b) := by
  rw [set_eq_modify_of_getElem? (fun _ => b) l i a ha]
  refine forall₂_modify hr _ l i (fun a' ha' => ?_)
  rw [ha] at ha'
  cases ha'
  exact hab

theorem conectarDispositivo_estado (s : SimuladorSO) (r : Reloj) (k : Nat) (tipo : String) :
    (s.conectarDispositivo r k tipo).2.1 =
      match Tipo.deNombre tipo with
      | none => { s with nextId := s.nextId + 1 }
      | some t =>
        { s with
          dispositivos := s.dispositivos ++
            [Dispositivo.nuevo t ("dev_" ++ tipo ++ "_" ++ toString s.nextId) (r k)]
          manejadores := s.manejadores.modificarActivos t (fun n => n + 1)
          nextId := s.nextId + 1
          autoCompleteInterval := true } := by
  unfold SimuladorSO.conectarDispositivo
  cases Tipo.deNombre tipo with
  | none => rfl
  | some t =>
    cases h : s.autoCompleteInterval <;> simp [SimuladorSO.iniciarAutoCompletado, h]

theorem forall₂_expulsar (R : Dispositivo → Dispositivo → Prop) (hr : ∀ d, R d d)
    (h : ∀ d : Dispositivo, R d
      { d.expulsar with operacionesPendientes := (d.expulsar.operacionesPendientes.map
          (fun op => if op.estado = .pendiente then { op with estado := .cancelado } else op)) })
    (s : SimuladorSO) (id : String) :
    List.Forall₂ R s.dispositivos (s.expulsarDispositivo id).2.dispositivos := by
  cases hi : s.dispositivos.findIdx? (fun dev => dev.id == id) with
  | none =>
    simp only [SimuladorSO.expulsarDispositivo, hi]
    exact List.forall₂_same.mpr fun _ _ => hr _
  | some i =>
    obtain ⟨d, hd, -⟩ := getElem?_of_findIdx? hi
    rw [expulsarDispositivo_dispositivos s id i d hi hd]
    exact forall₂_set hr _ i d _ hd (h d)

theorem forall₂_recuperar (R : Dispositivo → Dispositivo → Prop) (hr : ∀ d, R d d)
    (h : ∀ (d : Dispositivo) (r : Reloj) (k : Nat), R d (d.recuperarDeError r k).2.1)
    (s : SimuladorSO) (r : Reloj) (k : Nat) (id : String) :
    List.Forall₂ R s.dispositivos (s.recuperarDispositivo r k id).2.1.dispositivos := by
  cases hi : s.dispositivos.findIdx? (fun dev => dev.id == id) with
  | none =>
    simp only [SimuladorSO.recuperarDispositivo, hi]
    exact List.forall₂_same.mpr fun _ _ => hr _
  | some i =>
    cases hd : s.dispositivos[i]? with
    | none =>
      simp only [SimuladorSO.recuperarDispositivo, hi, hd]
      exact List.forall₂_same.mpr fun _ _ => hr _
    | some d =>
      by_cases he : d.enError = true
      · simp only [SimuladorSO.recuperarDispositivo, hi, hd, he, if_true]
        exact forall₂_set hr _ i d _ hd (h d r k)
      · simp only [SimuladorSO.recuperarDispositivo, hi, hd, he]
        exact List.forall₂_same.mpr fun _ _ => hr _

theorem forall₂_agregar (R : Dispositivo → Dispositivo → Prop) (hr : ∀ d, R d d)
    (h : ∀ (d : Dispositivo) (op : Operacion), d.estado = .conectado → op.estado = .pendiente →
      R d { d with operacionesPendientes := d.operacionesPendientes ++ [op] })
    (s : SimuladorSO) (r : Reloj) (k : Nat) (idDispositivo tipoOperacion : String)
    (datos : Option String) :
    List.Forall₂ R s.dispositivos
      (s.agregarOperacion r k idDispositivo tipoOperacion datos).2.1.dispositivos := by
  cases hi : s.dispositivos.findIdx? (fun dev => dev.id == idDispositivo) with
  | none =>
    simp only [SimuladorSO.agregarOperacion, hi]
    exact List.forall₂_same.mpr fun _ _ => hr _
  | some i =>
    cases hd : s.dispositivos[i]? with
    | none =>
      simp only [SimuladorSO.agregarOperacion, hi, hd]
      exact List.forall₂_same.mpr fun _ _ => hr _
    | some d =>
      by_cases hc : d.estado = .conectado
      · obtain ⟨op, hop, heq⟩ :=
          agregarOperacion_dispositivos s r k i d idDispositivo tipoOperacion datos hi hd hc
        rw [heq]
        exact forall₂_set hr _ i d _ hd (h d op hc hop)
      · simp only [SimuladorSO.agregarOperacion, hi, hd, ne_eq, hc, not_false_eq_true, if_true]
        exact List.forall₂_same.mpr fun _ _ => hr _

theorem forall₂_completar (R : Dispositivo → Dispositivo → Prop) (hr : ∀ d, R d d)
    (h : ∀ (d : Dispositivo) (t : Nat) (x : String), R d (completarEnDispositivo t x d))
    (s : SimuladorSO) (r : Reloj) (k : Nat) (x : String) :
    List.Forall₂ R s.dispositivos (s.completarOperacion r k x).2.1.dispositivos := by
  rw [completarOperacion_eq]
  show List.Forall₂ R _ (completarEnDispositivos _ _ _ _)
  rw [completarEnDispositivos_eq]
  cases posDispositivo x s.colaOperaciones s.dispositivos with
  | none => exact List.forall₂_same.mpr fun _ _ => hr _
  | some i => exact forall₂_modify hr _ _ _ (fun d _ => h d _ x)

theorem forall₂_fallar (R : Dispositivo → Dispositivo → Prop) (hr : ∀ d, R d d)
    (h : ∀ (d : Dispositivo) (x : String), R d (d.fallarOperacion x).2)
    (s : SimuladorSO) (r : Reloj) (k : Nat) (x : String) :
    List.Forall₂ R s.dispositivos (s.fallarOperacion r k x).2.1.dispositivos := by
  cases hn : s.colaOperaciones.findIdx? (fun op => op.id == x) with
  | none =>
    simp only [SimuladorSO.fallarOperacion, hn]
    exact List.forall₂_same.mpr fun _ _ => hr _
  | some n =>
    simp only [SimuladorSO.fallarOperacion, hn]
    split
    · exact List.forall₂_same.mpr fun _ _ => hr _
    · split
      · exact List.forall₂_same.mpr fun _ _ => hr _
      · split
        · exact List.forall₂_same.mpr fun _ _ => hr _
        · rename_i d hd
          exact forall₂_set hr _ _ d _ hd (h d x)

theorem forall₂_tic (R : Dispositivo → Dispositivo → Prop) (hr : ∀ d, R d d)
    (ht : ∀ a b c, R a b → R b c → R a c)
    (h : ∀ (d : Dispositivo) (t : Nat) (x : String), R d (completarEnDispositivo t x d))
    (s : SimuladorSO) (r : Reloj) (k : Nat) :
    List.Forall₂ R s.dispositivos (s.completarOperacionesPendientes r k).1.dispositivos := by
  unfold SimuladorSO.completarOperacionesPendientes
  refine foldl_preserva (fun st => List.Forall₂ R s.dispositivos st.1.dispositivos) _ ?_ _
    (s, k + 1) (List.forall₂_same.mpr fun _ _ => hr _)
  intro st i hst
  unfold barridoDispositivo
  split
  · exact hst
  · split
    · exact hst
    · refine foldl_preserva (fun st' => List.Forall₂ R s.dispositivos st'.1.dispositivos) _ ?_ _
        st hst
      intro st' j hst'
      rcases barridoOperacion_cases r (r k) i st' j with ⟨he, -⟩ | ⟨d, op, -, -, -, -, he⟩
      · rw [he]; exact hst'
      · rw [he]
        exact forall₂_trans3 ht hst' (forall₂_completar R hr h st'.1 r st'.2 op.id)

theorem camposFijos_recuperar (s : SimuladorSO) (r : Reloj) (k : Nat) (id : String) :
    camposFijos (s.recuperarDispositivo r k id).2.1 = camposFijos s := by
  unfold SimuladorSO.recuperarDispositivo
  split
  · rfl
  · split
    · rfl
    · split <;> rfl

theorem camposFijos_agregar (s : SimuladorSO) (r : Reloj) (k : Nat)
    (idDispositivo tipoOperacion : String) (datos : Option String) :
    camposFijos (s.agregarOperacion r k idDispositivo tipoOperacion datos).2.1 =
      camposFijos s := by
  unfold SimuladorSO.agregarOperacion
  split
  · rfl
  · split
    · rfl
    · split <;> rfl

theorem camposFijos_completar (s : SimuladorSO) (r : Reloj) (k : Nat) (x : String) :
    camposFijos (s.completarOperacion r k x).2.1 = camposFijos s := by
  rw [completarOperacion_eq]
  rfl

theorem camposFijos_fallar (s : SimuladorSO) (r : Reloj) (k : Nat) (x : String) :
    camposFijos (s.fallarOperacion r k x).2.1 = camposFijos s := by
  unfold SimuladorSO.fallarOperacion
  split
  · rfl
  · simp only
    split
    · rfl
    · split
      · rfl
      · split <;> rfl

theorem camposFijos_tic (s : SimuladorSO) (r : Reloj) (k : Nat) :
    camposFijos (s.completarOperacionesPendientes r k).1 = camposFijos s := by
  unfold SimuladorSO.completarOperacionesPendientes
  refine foldl_preserva (fun st => camposFijos st.1 = camposFijos s) _ ?_ _ (s, k + 1) rfl
  intro st i hst
  unfold barridoDispositivo
  split
  · exact hst
  · split
    · exact hst
    · refine foldl_preserva (fun st' => camposFijos st'.1 = camposFijos s) _ ?_ _ st hst
      intro st' j hst'
      rcases barridoOperacion_cases r (r k) i st' j with ⟨he, -⟩ | ⟨d, op, -, -, -, -, he⟩
      · rw [he]; exact hst'
      · rw [he]
        exact (camposFijos_completar st'.1 r st'.2 op.id).trans hst'

theorem forall₂_comp {α β : Type} {R : α → α → Prop} {Q Q' : α → β → Prop}
    (h : ∀ a b c, R a b → Q a c → Q' b c) {l l' : List α} {m : List β}
    (h₁ : List.Forall₂ R l l') (h₂ : List.Forall₂ Q l m) : List.Forall₂ Q' l' m := by
  induction h₁ generalizing m with
  | nil => cases h₂; exact List.Forall₂.nil
  | cons hab _ ih =>
    cases h₂ with
    | cons hq hrest => exact List.Forall₂.cons (h _ _ _ hab hq) (ih hrest)

theorem forall₂_append_singleton {α β : Type} {Q : α → β → Prop} {l : List α} {m : List β}
    (a : α) (b : β) (h : List.Forall₂ Q l m) (hab : Q a b) :
    List.Forall₂ Q (l ++ [a]) (m ++ [b]) := by
  induction h with
  | nil => exact List.Forall₂.cons hab List.Forall₂.nil
  | cons hq _ ih => exact List.Forall₂.cons hq ih

theorem mismaIdentidad_refl (d : Dispositivo) : MismaIdentidad d d := ⟨rfl, rfl⟩

theorem mismaIdentidad_trans (a b c : Dispositivo) (h₁ : MismaIdentidad a b)
    (h₂ : MismaIdentidad b c) : MismaIdentidad a c :=
  ⟨h₂.1.trans h₁.1, h₂.2.trans h₁.2⟩

theorem mismaIdentidad_recuperar (d : Dispositivo) (r : Reloj) (k : Nat) :
    MismaIdentidad d (d.recuperarDeError r k).2.1 := by
  unfold Dispositivo.recuperarDeError
  split <;> exact ⟨rfl, rfl⟩

theorem mismaIdentidad_completar (d : Dispositivo) (t : Nat) (x : String) :
    MismaIdentidad d (completarEnDispositivo t x d) := by
  unfold completarEnDispositivo
  split <;> exact ⟨rfl, rfl⟩

theorem mismaIdentidad_fallar (d : Dispositivo) (x : String) :
    MismaIdentidad d (d.fallarOperacion x).2 := by
  unfold Dispositivo.fallarOperacion
  split <;> exact ⟨rfl, rfl⟩

theorem invIds_of_mismaIdentidad (s t : SimuladorSO)
    (hd : List.Forall₂ MismaIdentidad s.dispositivos t.dispositivos)
    (hn : t.nextId = s.nextId) (h : InvIds s) : InvIds t := by
  obtain ⟨seqs, hp, hb, hf⟩ := h
  refine ⟨seqs, hp, fun n hn' => hn ▸ hb n hn', forall₂_comp ?_ hd hf⟩
  intro a b c hab hq
  rw [hab.1, hab.2]
  exact hq

theorem invIds_nuevo : InvIds SimuladorSO.nuevo :=
  ⟨[], List.Pairwise.nil, fun n hn => by simp at hn, List.Forall₂.nil⟩

theorem invIds_conectar (s : SimuladorSO) (r : Reloj) (k : Nat) (tipo : String)
    (h : InvIds s) : InvIds (s.conectarDispositivo r k tipo).2.1 := by
  obtain ⟨seqs, hp, hb, hf⟩ := h
  rw [conectarDispositivo_estado]
  cases hT : Tipo.deNombre tipo with
  | none => exact ⟨seqs, hp, fun n hn => Nat.lt_succ_of_lt (hb n hn), hf⟩
  | some t =>
    have htipo := deNombre_eq_some tipo t hT
    refine ⟨seqs ++ [s.nextId], ?_, ?_, ?_⟩
    · rw [List.pairwise_append]
      refine ⟨hp, List.pairwise_singleton _ _, fun a ha b hb' => ?_⟩
      simp only [List.mem_singleton] at hb'
      rw [hb']
      exact hb a ha
    · intro n hn
      rcases List.mem_append.mp hn with h1 | h1
      · exact Nat.lt_succ_of_lt (hb n h1)
      · simp only [List.mem_singleton] at h1
        rw [h1]
        exact Nat.lt_succ_self _
    · refine forall₂_append_singleton _ _ hf ?_
      rw [htipo]
      rfl

theorem camposFijos_nextId (s t : SimuladorSO) (h : camposFijos t = camposFijos s) :
    t.nextId = s.nextId := by
  have := congrArg (fun c => c.2.1) h
  exact this

theorem expulsarDispositivo_nextId (s : SimuladorSO) (id : String) :
    (s.expulsarDispositivo id).2.nextId = s.nextId := by
  unfold SimuladorSO.expulsarDispositivo
  split
  · rfl
  · split
    · rfl
    · simp only
      split <;> rfl

theorem invIds_ejecutar (r : Reloj) (st : SimuladorSO × Nat) (c : Comando)
    (h : InvIds st.1) : InvIds (ejecutar r st c).1 := by
  cases c with
  | conectar tipo => exact invIds_conectar st.1 r st.2 tipo h
  | expulsar id =>
    exact invIds_of_mismaIdentidad st.1 _
      (forall₂_expulsar MismaIdentidad mismaIdentidad_refl (fun _ => ⟨rfl, rfl⟩) st.1 id)
      (expulsarDispositivo_nextId st.1 id) h
  | recuperar id =>
    exact invIds_of_mismaIdentidad st.1 _
      (forall₂_recuperar MismaIdentidad mismaIdentidad_refl mismaIdentidad_recuperar st.1 r st.2 id)
      (camposFijos_nextId _ _ (camposFijos_recuperar st.1 r st.2 id)) h
  | agregar a b c =>
    exact invIds_of_mismaIdentidad st.1 _
      (forall₂_agregar MismaIdentidad mismaIdentidad_refl (fun _ _ _ _ => ⟨rfl, rfl⟩)
        st.1 r st.2 a b c)
      (camposFijos_nextId _ _ (camposFijos_agregar st.1 r st.2 a b c)) h
  | completar x =>
    exact invIds_of_mismaIdentidad st.1 _
      (forall₂_completar MismaIdentidad mismaIdentidad_refl mismaIdentidad_completar st.1 r st.2 x)
      (camposFijos_nextId _ _ (camposFijos_completar st.1 r st.2 x)) h
  | fallar x =>
    exact invIds_of_mismaIdentidad st.1 _
      (forall₂_fallar MismaIdentidad mismaIdentidad_refl mismaIdentidad_fallar st.1 r st.2 x)
      (camposFijos_nextId _ _ (camposFijos_fallar st.1 r st.2 x)) h
  | tic =>
    exact invIds_of_mismaIdentidad st.1 _
      (forall₂_tic MismaIdentidad mismaIdentidad_refl mismaIdentidad_trans
        mismaIdentidad_completar st.1 r st.2)
      (camposFijos_nextId _ _ (camposFijos_tic st.1 r st.2)) h

theorem invIds_alcanzable (s : SimuladorSO) (h : Alcanzable s) : InvIds s := by
  obtain ⟨r, cs, rfl⟩ := h
  exact foldl_preserva (fun st => InvIds st.1) _
    (fun b a hb => invIds_ejecutar r b a hb) cs (SimuladorSO.nuevo, 0) invIds_nuevo

theorem forall₂_mem_left {α β : Type} {Q : α → β → Prop} {l : List α} {m : List β}
    (h : List.Forall₂ Q l m) (a : α) (ha : a ∈ l) : ∃ b ∈ m, Q a b := by
  induction h with
  | nil => simp at ha
  | cons hq _ ih =>
    rcases List.mem_cons.mp ha with rfl | ha'
    · exact ⟨_, List.mem_cons_self _ _, hq⟩
    · obtain ⟨b, hb, hqb⟩ := ih ha'
      exact ⟨b, List.mem_cons_of_mem _ hb, hqb⟩

theorem ids_distintos_of_seqs (l : List Dispositivo) (seqs : List Nat)
    (hp : seqs.Pairwise (fun a b => a < b))
    (hf : List.Forall₂ (fun d n => d.id = idDispositivo d.tipo n) l seqs) :
    (l.map (fun d => d.id)).Nodup := by
  rw [List.Nodup, List.pairwise_map]
  induction hf with
  | nil => exact List.Pairwise.nil
  | cons hq hrest ih =>
    rename_i d n l' seqs'
    rw [List.pairwise_cons] at hp ⊢
    refine ⟨fun e he heq => ?_, ih hp.2⟩
    obtain ⟨m, hm, hqm⟩ := forall₂_mem_left hrest e he
    have hlt := hp.1 m hm
    rw [hq, hqm] at heq
    have := (idDispositivo_inj _ _ _ _ heq).2
    omega

/-- C17: in every reachable manager state no two devices of the device list
share an id, and each id is `dev_<class>_<seq>` for the device's class and a
sequence number, the sequence numbers increasing strictly along the list. -/
theorem alcanzable_ids_dispositivos (s : SimuladorSO) (h : Alcanzable s) :
    (s.dispositivos.map (fun d => d.id)).Nodup ∧
    ∃ seqs : List Nat, seqs.Pairwise (fun a b => a < b) ∧
      List.Forall₂ (fun d n => d.id = "dev_" ++ d.tipo.nombre ++ "_" ++ toString n)
        s.dispositivos seqs := by
  obtain ⟨seqs, hp, -, hf⟩ := invIds_alcanzable s h
  exact ⟨ids_distintos_of_seqs _ seqs hp hf, seqs, hp, hf⟩

/-- Witness of `alcanzable_ids_dispositivos`: a rejected connect between two
accepted ones. -/
theorem alcanzable_ids_dispositivos_witness :
    ((correr (relojPaso 1) [.conectar "usb", .conectar "teclado",
        .conectar "impresora"]).1.dispositivos.map (fun d => d.id)).Nodup :=
  (alcanzable_ids_dispositivos
    (correr (relojPaso 1) [.conectar "usb", .conectar "teclado", .conectar "impresora"]).1
    ⟨relojPaso 1, [.conectar "usb", .conectar "teclado", .conectar "impresora"], rfl⟩).1

/-! ## The timer -/

theorem sigue_recuperar (d : Dispositivo) (r : Reloj) (k : Nat) :
    SigueNoDesconectado d (d.recuperarDeError r k).2.1 := by
  unfold Dispositivo.recuperarDeError SigueNoDesconectado
  split
  · intro _ h; cases h
  · exact id

theorem sigue_completar (d : Dispositivo) (t : Nat) (x : String) :
    SigueNoDesconectado d (completarEnDispositivo t x d) := by
  unfold completarEnDispositivo SigueNoDesconectado
  split <;> exact id

theorem sigue_fallar (d : Dispositivo) (x : String) :
    SigueNoDesconectado d (d.fallarOperacion x).2 := by
  unfold Dispositivo.fallarOperacion SigueNoDesconectado
  split
  · intro _ h; cases h
  · exact id

theorem hayNoDesconectado_of_forall₂ (l l' : List Dispositivo)
    (h : List.Forall₂ SigueNoDesconectado l l')
    (hl : ∃ d ∈ l, d.estado ≠ .desconectado) : ∃ e ∈ l', e.estado ≠ .desconectado := by
  obtain ⟨d, hd, hne⟩ := hl
  obtain ⟨e, he, hde⟩ := forall₂_mem_left h d hd
  exact ⟨e, he, hde hne⟩

theorem camposFijos_interval (s t : SimuladorSO) (h : camposFijos t = camposFijos s) :
    t.autoCompleteInterval = s.autoCompleteInterval := by
  have := congrArg (fun c => c.2.2.1) h
  exact this

theorem invTemporizador_of_sigue (s t : SimuladorSO)
    (hd : List.Forall₂ SigueNoDesconectado s.dispositivos t.dispositivos)
    (hc : camposFijos t = camposFijos s) (h : InvTemporizador s) : InvTemporizador t := by
  intro ht
  rw [camposFijos_interval s t hc] at ht
  exact hayNoDesconectado_of_forall₂ _ _ hd (h ht)

theorem invTemporizador_conectar (s : SimuladorSO) (r : Reloj) (k : Nat) (tipo : String)
    (h : InvTemporizador s) : InvTemporizador (s.conectarDispositivo r k tipo).2.1 := by
  rw [conectarDispositivo_estado]
  cases hT : Tipo.deNombre tipo with
  | none => exact h
  | some t =>
    intro _
    exact ⟨Dispositivo.nuevo t ("dev_" ++ tipo ++ "_" ++ toString s.nextId) (r k),
      List.mem_append.mpr (Or.inr (List.mem_singleton.mpr rfl)), by simp [Dispositivo.nuevo]⟩

theorem invTemporizador_expulsar (s : SimuladorSO) (id : String) (h : InvTemporizador s) :
    InvTemporizador (s.expulsarDispositivo id).2 := by
  cases hi : s.dispositivos.findIdx? (fun dev => dev.id == id) with
  | none => simpa only [SimuladorSO.expulsarDispositivo, hi] using h
  | some i =>
    cases hd : s.dispositivos[i]? with
    | none => simpa only [SimuladorSO.expulsarDispositivo, hi, hd] using h
    | some d =>
      simp only [SimuladorSO.expulsarDispositivo, hi, hd]
      split
      · intro hf
        cases hf
      · rename_i hlen
        intro _
        obtain ⟨e, he⟩ := List.exists_mem_of_length_pos (Nat.pos_of_ne_zero hlen)
        rw [List.mem_filter] at he
        refine ⟨e, he.1, ?_⟩
        have : e.estado = .conectado := by simpa using he.2
        rw [this]
        decide

theorem invTemporizador_ejecutar (r : Reloj) (st : SimuladorSO × Nat) (c : Comando)
    (h : InvTemporizador st.1) : InvTemporizador (ejecutar r st c).1 := by
  cases c with
  | conectar tipo => exact invTemporizador_conectar st.1 r st.2 tipo h
  | expulsar id => exact invTemporizador_expulsar st.1 id h
  | recuperar id =>
    exact invTemporizador_of_sigue st.1 _
      (forall₂_recuperar SigueNoDesconectado (fun _ hh => hh) sigue_recuperar st.1 r st.2 id)
      (camposFijos_recuperar st.1 r st.2 id) h
  | agregar a b c =>
    exact invTemporizador_of_sigue st.1 _
      (forall₂_agregar SigueNoDesconectado (fun _ hh => hh) (fun _ _ _ _ hh => hh) st.1 r st.2 a b c)
      (camposFijos_agregar st.1 r st.2 a b c) h
  | completar x =>
    exact invTemporizador_of_sigue st.1 _
      (forall₂_completar SigueNoDesconectado (fun _ hh => hh) sigue_completar st.1 r st.2 x)
      (camposFijos_completar st.1 r st.2 x) h
  | fallar x =>
    exact invTemporizador_of_sigue st.1 _
      (forall₂_fallar SigueNoDesconectado (fun _ hh => hh) sigue_fallar st.1 r st.2 x)
      (camposFijos_fallar st.1 r st.2 x) h
  | tic =>
    exact invTemporizador_of_sigue st.1 _
      (forall₂_tic SigueNoDesconectado (fun _ hh => hh) (fun _ _ _ h₁ h₂ hh => h₂ (h₁ hh))
        sigue_completar st.1 r st.2)
      (camposFijos_tic st.1 r st.2) h

theorem invTemporizador_alcanzable (s : SimuladorSO) (h : Alcanzable s) :
    InvTemporizador s := by
  obtain ⟨r, cs, rfl⟩ := h
  exact foldl_preserva (fun st => InvTemporizador st.1) _
    (fun b a hb => invTemporizador_ejecutar r b a hb) cs (SimuladorSO.nuevo, 0)
    (fun hf => by cases hf)

/-- C12 (as amended): with the timer modelled as the flag
`autoCompleteInterval`, in every reachable manager state a running timer
implies that at least one device is not `desconectado` (its `estado` is
`conectado` or `error`); every connect of a known class leaves the timer
running; and an eject that finds its device and leaves no device `conectado`
leaves the timer stopped. -/
theorem alcanzable_temporizador (s : SimuladorSO) (h : Alcanzable s) :
    (s.autoCompleteInterval = true → ∃ d ∈ s.dispositivos, d.estado ≠ .desconectado) ∧
    (∀ (r : Reloj) (k : Nat) (t : Tipo),
      (s.conectarDispositivo r k t.nombre).2.1.autoCompleteInterval = true) ∧
    (∀ id : String, (s.expulsarDispositivo id).1 = true →
      (∀ d ∈ (s.expulsarDispositivo id).2.dispositivos, d.estado ≠ .conectado) →
      (s.expulsarDispositivo id).2.autoCompleteInterval = false) := by
  refine ⟨invTemporizador_alcanzable s h, fun r k t => ?_, fun id hret hall => ?_⟩
  · rw [conectarDispositivo_estado, deNombre_nombre]
  · cases hi : s.dispositivos.findIdx? (fun dev => dev.id == id) with
    | none => simp [SimuladorSO.expulsarDispositivo, hi] at hret
    | some i =>
      cases hd : s.dispositivos[i]? with
      | none => simp [SimuladorSO.expulsarDispositivo, hi, hd] at hret
      | some d =>
        rw [expulsarDispositivo_dispositivos s id i d hi hd] at hall
        simp only [SimuladorSO.expulsarDispositivo, hi, hd]
        split
        · rfl
        · rename_i hlen
          exfalso
          obtain ⟨e, he⟩ := List.exists_mem_of_length_pos (Nat.pos_of_ne_zero hlen)
          rw [List.mem_filter] at he
          exact hall e he.1 (by simpa using he.2)

/-- Witness of `alcanzable_temporizador`: the state after connect(USB), one
submit and fail, where the timer runs and the only device is in `error`. -/
theorem alcanzable_temporizador_witness :
    (correr (relojPaso 1) [.conectar "usb", .agregar "dev_usb_1" "salida" none,
        .fallar "op_usb_1"]).1.autoCompleteInterval = true ∧
    ∃ d ∈ (correr (relojPaso 1) [.conectar "usb", .agregar "dev_usb_1" "salida" none,
        .fallar "op_usb_1"]).1.dispositivos, d.estado ≠ .desconectado :=
  ⟨by decide,
   (alcanzable_temporizador
      (correr (relojPaso 1) [.conectar "usb", .agregar "dev_usb_1" "salida" none,
        .fallar "op_usb_1"]).1
      ⟨relojPaso 1, [.conectar "usb", .agregar "dev_usb_1" "salida" none, .fallar "op_usb_1"],
        rfl⟩).1 (by decide)⟩

/-- C12 (counterexample): after connect(USB), one submit and fail the state is
reachable, the timer is running and no device is `conectado`. -/
theorem temporizador_sin_conectado :
    ∃ s, Alcanzable s ∧
      ¬ (s.autoCompleteInterval = true ↔ ∃ d ∈ s.dispositivos, d.estado = .conectado) := by
  refine ⟨_, ⟨relojPaso 1, [.conectar "usb", .agregar "dev_usb_1" "salida" none,
    .fallar "op_usb_1"], rfl⟩, ?_⟩
  decide

/-! ## The operation history only grows -/

theorem extiende_of_forall₂ {α : Type} {R : α → α → Prop} {l l' : List α}
    (h : List.Forall₂ R l l') : Extiende R l l' :=
  ⟨l', [], (List.append_nil l').symm, h⟩

theorem extiende_append {α : Type} {R : α → α → Prop} (hr : ∀ a, R a a) (l m : List α) :
    Extiende R l (l ++ m) :=
  ⟨l, m, rfl, List.forall₂_same.mpr fun _ _ => hr _⟩

theorem extiende_mono {α : Type} {R S : α → α → Prop} (h : ∀ a b, R a b → S a b)
    {l l' : List α} (he : Extiende R l l') : Extiende S l l' := by
  obtain ⟨l₁, l₂, heq, hf⟩ := he
  exact ⟨l₁, l₂, heq, hf.imp h⟩

theorem extiende_getElem? {α : Type} {R : α → α → Prop} {l l' : List α}
    (he : Extiende R l l') (n : Nat) (a : α) (ha : l[n]? = some a) :
    ∃ b, l'[n]? = some b ∧ R a b := by
  obtain ⟨l₁, l₂, heq, hf⟩ := he
  obtain ⟨b, hb, hab⟩ := forall₂_getElem?_left hf n a ha
  refine ⟨b, ?_, hab⟩
  rw [heq]
  obtain ⟨hlt, -⟩ := List.getElem?_eq_some.mp hb
  rw [List.getElem?_append_left hlt]
  exact hb

theorem extiende_map {α β : Type} {R : α → α → Prop} (f : α → β)
    (hf : ∀ a b, R a b → f b = f a) {l l' : List α} (he : Extiende R l l') :
    l.map f <+: l'.map f := by
  obtain ⟨l₁, l₂, heq, h⟩ := he
  refine ⟨l₂.map f, ?_⟩
  rw [heq, List.map_append, forall₂_map_eq f hf h]

theorem mismoRegistro_refl (a : Operacion) : MismoRegistro a a := ⟨rfl, rfl, rfl, rfl⟩

theorem mismoRegistro_trans (a b c : Operacion) (h₁ : MismoRegistro a b)
    (h₂ : MismoRegistro b c) : MismoRegistro a c :=
  ⟨h₂.1.trans h₁.1, h₂.2.1.trans h₁.2.1, h₂.2.2.1.trans h₁.2.2.1, h₂.2.2.2.trans h₁.2.2.2⟩

theorem mismoRegistroCola_refl (q : OperacionCola) : MismoRegistroCola q q := ⟨rfl, rfl, rfl⟩

theorem mismoRegistroCola_trans (a b c : OperacionCola) (h₁ : MismoRegistroCola a b)
    (h₂ : MismoRegistroCola b c) : MismoRegistroCola a c :=
  ⟨h₂.1.trans h₁.1, h₂.2.1.trans h₁.2.1, h₂.2.2.trans h₁.2.2⟩

theorem actualizado_refl (d : Dispositivo) : ActualizadoEnSitio d d :=
  ⟨rfl, List.forall₂_same.mpr fun _ _ => mismoRegistro_refl _⟩

theorem actualizado_trans (a b c : Dispositivo) (h₁ : ActualizadoEnSitio a b)
    (h₂ : ActualizadoEnSitio b c) : ActualizadoEnSitio a c :=
  ⟨h₂.1.trans h₁.1, forall₂_trans3 mismoRegistro_trans h₁.2 h₂.2⟩

theorem historial_of_actualizado (d e : Dispositivo) (h : ActualizadoEnSitio d e) :
    HistorialDispositivo d e :=
  ⟨h.1, extiende_of_forall₂ h.2⟩

theorem historialDispositivo_refl (d : Dispositivo) : HistorialDispositivo d d :=
  historial_of_actualizado d d (actualizado_refl d)

theorem forall₂_map_self {α : Type} {R : α → α → Prop} (f : α → α) (h : ∀ a, R a (f a))
    (l : List α) : List.Forall₂ R l (l.map f) := by
  induction l with
  | nil => exact List.Forall₂.nil
  | cons a l ih => exact List.Forall₂.cons (h a) ih

theorem actualizado_expulsar (d : Dispositivo) :
    ActualizadoEnSitio d
      { d.expulsar with operacionesPendientes := (d.expulsar.operacionesPendientes.map
          (fun op => if op.estado = .pendiente then { op with estado := .cancelado } else op)) } := by
  refine ⟨rfl, forall₂_map_self _ (fun op => ?_) _⟩
  by_cases h : op.estado = .pendiente
  · rw [if_pos h]; exact ⟨rfl, rfl, rfl, rfl⟩
  · rw [if_neg h]; exact mismoRegistro_refl op

theorem mismoRegistro_recuperarOperaciones (r : Reloj) (ops : List Operacion) (k : Nat) :
    List.Forall₂ MismoRegistro ops (recuperarOperaciones r k ops).1 := by
  induction ops generalizing k with
  | nil => exact List.Forall₂.nil
  | cons a ops ih =>
    by_cases h : a.estado = .fallido
    · simp only [recuperarOperaciones, h, if_true]
      exact List.Forall₂.cons ⟨rfl, rfl, rfl, rfl⟩ (ih (k + 1))
    · simp only [recuperarOperaciones, h, if_false]
      exact List.Forall₂.cons (mismoRegistro_refl a) (ih k)

theorem actualizado_recuperar (d : Dispositivo) (r : Reloj) (k : Nat) :
    ActualizadoEnSitio d (d.recuperarDeError r k).2.1 := by
  unfold Dispositivo.recuperarDeError
  split
  · exact ⟨rfl, mismoRegistro_recuperarOperaciones r _ k⟩
  · exact actualizado_refl d

theorem actualizado_completar (d : Dispositivo) (t : Nat) (x : String) :
    ActualizadoEnSitio d (completarEnDispositivo t x d) := by
  unfold completarEnDispositivo
  split
  · exact actualizado_refl d
  · exact ⟨rfl, forall₂_modify mismoRegistro_refl _ _ _ (fun _ _ => ⟨rfl, rfl, rfl, rfl⟩)⟩

theorem actualizado_fallar (d : Dispositivo) (x : String) :
    ActualizadoEnSitio d (d.fallarOperacion x).2 := by
  unfold Dispositivo.fallarOperacion
  split
  · exact ⟨rfl, forall₂_modify mismoRegistro_refl _ _ _ (fun _ _ => ⟨rfl, rfl, rfl, rfl⟩)⟩
  · exact actualizado_refl d

/-! ### The queue under each method -/

theorem cola_conectar (s : SimuladorSO) (r : Reloj) (k : Nat) (tipo : String) :
    (s.conectarDispositivo r k tipo).2.1.colaOperaciones = s.colaOperaciones := by
  rw [conectarDispositivo_estado]
  cases Tipo.deNombre tipo <;> rfl

theorem cola_expulsar (s : SimuladorSO) (id : String) :
    (s.expulsarDispositivo id).2.colaOperaciones = s.colaOperaciones := by
  unfold SimuladorSO.expulsarDispositivo
  split
  · rfl
  · split
    · rfl
    · simp only
      split <;> rfl

theorem cola_recuperar (s : SimuladorSO) (r : Reloj) (k : Nat) (id : String) :
    (s.recuperarDispositivo r k id).2.1.colaOperaciones = s.colaOperaciones := by
  unfold SimuladorSO.recuperarDispositivo
  split
  · rfl
  · split
    · rfl
    · split <;> rfl

theorem cola_agregar (s : SimuladorSO) (r : Reloj) (k : Nat)
    (idDispositivo tipoOperacion : String) (datos : Option String) :
    ∃ m : List OperacionCola,
      (s.agregarOperacion r k idDispositivo tipoOperacion datos).2.1.colaOperaciones =
        s.colaOperaciones ++ m := by
  unfold SimuladorSO.agregarOperacion
  split
  · exact ⟨[], (List.append_nil _).symm⟩
  · split
    · exact ⟨[], (List.append_nil _).symm⟩
    · split
      · exact ⟨[], (List.append_nil _).symm⟩
      · exact ⟨_, rfl⟩

theorem cola_completar (s : SimuladorSO) (r : Reloj) (k : Nat) (x : String) :
    List.Forall₂ MismoRegistroCola s.colaOperaciones
      (s.completarOperacion r k x).2.1.colaOperaciones := by
  rw [completarOperacion_eq]
  show List.Forall₂ _ _ (completarEnCola _ _ _)
  unfold completarEnCola
  split
  · exact List.forall₂_same.mpr fun _ _ => mismoRegistroCola_refl _
  · exact forall₂_modify mismoRegistroCola_refl _ _ _ (fun _ _ => ⟨rfl, rfl, rfl⟩)

theorem cola_fallar (s : SimuladorSO) (r : Reloj) (k : Nat) (x : String) :
    List.Forall₂ MismoRegistroCola s.colaOperaciones
      (s.fallarOperacion r k x).2.1.colaOperaciones := by
  have hmod : ∀ n : Nat, List.Forall₂ MismoRegistroCola s.colaOperaciones
      (s.colaOperaciones.modify
        (fun op => { op with estado := .fallido, failedAt := some (r k) }) n) :=
    fun n => forall₂_modify mismoRegistroCola_refl _ _ _ (fun _ _ => ⟨rfl, rfl, rfl⟩)
  cases hn : s.colaOperaciones.findIdx? (fun op => op.id == x) with
  | none =>
    simp only [SimuladorSO.fallarOperacion, hn]
    exact List.forall₂_same.mpr fun _ _ => mismoRegistroCola_refl _
  | some n =>
    simp only [SimuladorSO.fallarOperacion, hn]
    split
    · exact hmod n
    · split
      · exact hmod n
      · split
        · exact hmod n
        · exact hmod n

theorem cola_tic (s : SimuladorSO) (r : Reloj) (k : Nat) :
    List.Forall₂ MismoRegistroCola s.colaOperaciones
      (s.completarOperacionesPendientes r k).1.colaOperaciones := by
  unfold SimuladorSO.completarOperacionesPendientes
  refine foldl_preserva
    (fun st => List.Forall₂ MismoRegistroCola s.colaOperaciones st.1.colaOperaciones) _ ?_ _
    (s, k + 1) (List.forall₂_same.mpr fun _ _ => mismoRegistroCola_refl _)
  intro st i hst
  unfold barridoDispositivo
  split
  · exact hst
  · split
    · exact hst
    · refine foldl_preserva
        (fun st' => List.Forall₂ MismoRegistroCola s.colaOperaciones st'.1.colaOperaciones) _ ?_ _
        st hst
      intro st' j hst'
      rcases barridoOperacion_cases r (r k) i st' j with ⟨he, -⟩ | ⟨d, op, -, -, -, -, he⟩
      · rw [he]; exact hst'
      · rw [he]
        exact forall₂_trans3 mismoRegistroCola_trans hst' (cola_completar st'.1 r st'.2 op.id)

theorem historial_ejecutar (r : Reloj) (st : SimuladorSO × Nat) (c : Comando) :
    Historial st.1 (ejecutar r st c).1 := by
  have hdev : ∀ t : SimuladorSO,
      List.Forall₂ ActualizadoEnSitio st.1.dispositivos t.dispositivos →
      Extiende HistorialDispositivo st.1.dispositivos t.dispositivos :=
    fun t h => extiende_of_forall₂ (h.imp historial_of_actualizado)
  cases c with
  | conectar tipo =>
    refine ⟨?_, ?_⟩
    · show Extiende _ _ (st.1.conectarDispositivo r st.2 tipo).2.1.dispositivos
      rw [conectarDispositivo_estado]
      cases Tipo.deNombre tipo with
      | none =>
        exact extiende_of_forall₂ (List.forall₂_same.mpr fun _ _ => historialDispositivo_refl _)
      | some t => exact extiende_append historialDispositivo_refl _ _
    · show Extiende _ _ (st.1.conectarDispositivo r st.2 tipo).2.1.colaOperaciones
      rw [cola_conectar]
      exact extiende_of_forall₂ (List.forall₂_same.mpr fun _ _ => mismoRegistroCola_refl _)
  | expulsar id =>
    refine ⟨hdev _ (forall₂_expulsar ActualizadoEnSitio actualizado_refl actualizado_expulsar
      st.1 id), ?_⟩
    show Extiende _ _ (st.1.expulsarDispositivo id).2.colaOperaciones
    rw [cola_expulsar]
    exact extiende_of_forall₂ (List.forall₂_same.mpr fun _ _ => mismoRegistroCola_refl _)
  | recuperar id =>
    refine ⟨hdev _ (forall₂_recuperar ActualizadoEnSitio actualizado_refl actualizado_recuperar
      st.1 r st.2 id), ?_⟩
    show Extiende _ _ (st.1.recuperarDispositivo r st.2 id).2.1.colaOperaciones
    rw [cola_recuperar]
    exact extiende_of_forall₂ (List.forall₂_same.mpr fun _ _ => mismoRegistroCola_refl _)
  | agregar a b c =>
    refine ⟨extiende_of_forall₂ (forall₂_agregar HistorialDispositivo historialDispositivo_refl
      (fun d op _ _ => ⟨rfl, extiende_append mismoRegistro_refl _ _⟩) st.1 r st.2 a b c), ?_⟩
    show Extiende _ _ (st.1.agregarOperacion r st.2 a b c).2.1.colaOperaciones
    obtain ⟨m, hm⟩ := cola_agregar st.1 r st.2 a b c
    rw [hm]
    exact extiende_append mismoRegistroCola_refl _ _
  | completar x =>
    exact ⟨hdev _ (forall₂_completar ActualizadoEnSitio actualizado_refl actualizado_completar
      st.1 r st.2 x), extiende_of_forall₂ (cola_completar st.1 r st.2 x)⟩
  | fallar x =>
    exact ⟨hdev _ (forall₂_fallar ActualizadoEnSitio actualizado_refl actualizado_fallar
      st.1 r st.2 x), extiende_of_forall₂ (cola_fallar st.1 r st.2 x)⟩
  | tic =>
    exact ⟨hdev _ (forall₂_tic ActualizadoEnSitio actualizado_refl actualizado_trans
      actualizado_completar st.1 r st.2), extiende_of_forall₂ (cola_tic st.1 r st.2)⟩

/-- C21: the operation history is append-only.  For every manager state and
every public command or sweep tick, the sequence of operation ids in the queue
before the step is a start of the sequence after it, and every queue record
is still at its position with the same id, device and kind; the device list
keeps its ids in order, and for every device the sequence of operation ids of
its list before the step is a start of the sequence after it, every record
still at its position with the same id, kind, device and payload.  Only
`estado` and the timestamps of a record are updated in place. -/
theorem historial_solo_crece (r : Reloj) (st : SimuladorSO × Nat) (c : Comando) :
    (st.1.colaOperaciones.map (fun q => q.id) <+:
      (ejecutar r st c).1.colaOperaciones.map (fun q => q.id)) ∧
    (∀ (n : Nat) (q : OperacionCola), st.1.colaOperaciones[n]? = some q →
      ∃ q' : OperacionCola, (ejecutar r st c).1.colaOperaciones[n]? = some q' ∧
        q'.id = q.id ∧ q'.dispositivo = q.dispositivo ∧ q'.tipo = q.tipo) ∧
    (st.1.dispositivos.map (fun d => d.id) <+:
      (ejecutar r st c).1.dispositivos.map (fun d => d.id)) ∧
    (∀ (i : Nat) (d : Dispositivo), st.1.dispositivos[i]? = some d →
      ∃ d' : Dispositivo, (ejecutar r st c).1.dispositivos[i]? = some d' ∧ d'.id = d.id ∧
        (d.operacionesPendientes.map (fun op => op.id) <+:
          d'.operacionesPendientes.map (fun op => op.id)) ∧
        ∀ (j : Nat) (op : Operacion), d.operacionesPendientes[j]? = some op →
          ∃ op' : Operacion, d'.operacionesPendientes[j]? = some op' ∧
            op'.id = op.id ∧ op'.tipo = op.tipo ∧ op'.dispositivo = op.dispositivo ∧
            op'.datos = op.datos) := by
  obtain ⟨hd, hq⟩ := historial_ejecutar r st c
  refine ⟨extiende_map _ (fun _ _ h => h.1) hq, fun n q hn => ?_,
    extiende_map _ (fun _ _ h => h.1) hd, fun i d hi => ?_⟩
  · obtain ⟨q', hq', h⟩ := extiende_getElem? hq n q hn
    exact ⟨q', hq', h.1, h.2.1, h.2.2⟩
  · obtain ⟨d', hd', h⟩ := extiende_getElem? hd i d hi
    refine ⟨d', hd', h.1, extiende_map _ (fun _ _ hh => hh.1) h.2, fun j op hj => ?_⟩
    obtain ⟨op', hop', hh⟩ := extiende_getElem? h.2 j op hj
    exact ⟨op', hop', hh.1, hh.2.1, hh.2.2.1, hh.2.2.2⟩

end GestionDispositivos
